import Mathlib

/-!
Verification of the feed-to-table normalization and resilient-caching pipeline
of the Global Earthquake / Disaster Monitor repository.

The development shallowly embeds the two data pipelines of the repository:

* `src/data.py` — the USGS pipeline: `_mag_to_alert_level`, `_extract_country`,
  `geojson_to_df`, and `load_data_with_cache` (CSV cache write / read / coerce).
* `src/app.py` — the GDACS pipeline: `fetch_gdacs_rss_xml` (body sniffing),
  `_parse_rfc822`, `rss_to_df`, and its own `load_data_with_cache`.

Conventions of the embedding:

* Python `float` magnitudes, scores and coordinates are modelled as exact
  rationals (`ℚ`); timestamps as rational milliseconds since the Unix epoch;
  dates as integer days since the epoch.  Floating-point rounding is outside
  the model.
* A pandas `DataFrame` is modelled as a column-name list plus rows of `Cell`
  values by position (`Df`).  Missing values (`None` / `NaN` / `NaT`) are the
  cell `Cell.na`.
* Fallible Python code returns `Except`; the exception classes that matter to
  the control flow of `load_data_with_cache` are the constructors of `UPyExc`
  (USGS) and `GExc` (GDACS).
-/

deriving instance DecidableEq for Except

namespace Monitor

/-! ## Python string primitives -/

/-- Characters stripped by Python `str.strip()` (ASCII whitespace; the rare
Unicode whitespace code points are outside the model). -/
def pyIsSpace (c : Char) : Bool :=
  c = ' ' || c = '\t' || c = '\n' || c = '\r' || c = '\x0b' || c = '\x0c'

/-- Python `s.strip()` on the underlying character list. -/
def pyStripChars (cs : List Char) : List Char :=
  ((cs.dropWhile pyIsSpace).reverse.dropWhile pyIsSpace).reverse

/-- Python `s.strip()`. -/
def pyStrip (s : String) : String :=
  String.mk (pyStripChars s.data)

/-- Python `s.lstrip("﻿")`: removes every leading byte-order-mark char. -/
def pyLstripBom (s : String) : String :=
  String.mk (s.data.dropWhile (· = '﻿'))

/-- `l₁` occurs at the start of `l₂`. -/
def listIsStart : List Char → List Char → Bool
  | [], _ => true
  | _ :: _, [] => false
  | a :: as, b :: bs => a = b && listIsStart as bs

/-- Python `s.startswith(p)`. -/
def pyStartsWith (s p : String) : Bool :=
  listIsStart p.data s.data

/-- `pat` occurs somewhere inside `cs` (Python `pat in s`). -/
def listHasInfix (pat : List Char) : List Char → Bool
  | [] => listIsStart pat []
  | c :: cs => listIsStart pat (c :: cs) || listHasInfix pat cs

/-- Python `pat in s` for strings. -/
def pyContains (s pat : String) : Bool :=
  listHasInfix pat.data s.data

/-- Python `s.lower()` (ASCII case folding; the feed bodies are ASCII-marked). -/
def pyLower (s : String) : String :=
  String.mk (s.data.map Char.toLower)

/-- Python `s[:n]`. -/
def pyTake (n : Nat) (s : String) : String :=
  String.mk (s.data.take n)

/-- Python `s.capitalize()`: first character upper-cased, the rest lower-cased. -/
def pyCapitalize (s : String) : String :=
  match s.data with
  | [] => ""
  | c :: cs => String.mk (c.toUpper :: cs.map Char.toLower)

/-- Python `s.rsplit(sep, 1)`: split at the last occurrence of `sep`.
Returns `[s]` when `sep` does not occur, else `[before, after]`. -/
def pyRsplit1 (sep : Char) (s : String) : List String :=
  match s.data.reverse.span (fun c => c ≠ sep) with
  | (_, []) => [s]
  | (aftRev, _ :: befRev) => [String.mk befRev.reverse, String.mk aftRev.reverse]

/-! ## `src/data.py` internal helpers -/

/-- `_mag_to_alert_level` (src/data.py:52-62): derive an alert level from an
optional earthquake magnitude (`none` models a missing magnitude, for which
`pd.isna` is true).  The thresholds 7.0 and 5.5 and 4.0 are written with
`mkRat` so that the function evaluates inside the kernel. -/
def mag_to_alert_level (mag : Option ℚ) : String :=
  match mag with
  | none => "Unknown"
  | some m =>
    if m ≥ mkRat 7 1 then "Red"
    else if m ≥ mkRat 11 2 then "Orange"
    else if m ≥ mkRat 4 1 then "Green"
    else "Green"

/-- `_extract_country` (src/data.py:65-72): extract the country/region from a
USGS place string.  An empty (falsy) string yields `"Unknown"`. -/
def extract_country (placeStr : String) : String :=
  if placeStr = "" then "Unknown"
  else
    match pyRsplit1 ',' placeStr with
    | [_, aft] => pyStrip aft
    | _ => pyStrip placeStr

/-! ## The DataFrame model

A pandas `DataFrame` is a list of column names plus rows of cells by position.
`Cell.na` models every missing value (`None`, `NaN`, `NaT`).  `Cell.tsStr` and
`Cell.dateStr` model string cells whose content is pandas' own rendering of a
timestamp (respectively a date): the CSV cache stores timestamps as text, and
`pd.to_datetime` recovers the instant from that text, so the model keeps the
instant as the payload of the string cell instead of spelling its digits. -/

inductive Cell
  | na
  | str (s : String)
  | num (q : ℚ)
  | ts (ms : ℚ)
  | date (d : ℤ)
  | tsStr (ms : ℚ)
  | dateStr (d : ℤ)
  | pyObj
deriving DecidableEq

structure Df where
  cols : List String
  rows : List (List Cell)
deriving DecidableEq

/-! ## Python/JSON dynamics

`requests.Response.json()` can return any JSON value, and `geojson_to_df`
(src/data.py:136-187) applies `.get`, `.capitalize()`, `len()`, indexing,
numeric comparison and division to pieces of it.  The model reproduces the
exception each of those operations raises on an unexpected shape, because
`load_data_with_cache` catches only some exception classes.  JSON booleans
are not modelled (the USGS fields in play are numbers, strings and nulls). -/

inductive PyJson
  | null
  | num (q : ℚ)
  | str (s : String)
  | arr (xs : List PyJson)
  | obj (kvs : List (String × PyJson))

/-- Exception classes raised inside `load_data_with_cache`'s `try` block in
src/data.py.  `requests.RequestException`, `ValueError` and `KeyError` are the
classes its `except` clause (line 219) catches. -/
inductive UPyExc
  | requestException
  | valueError
  | keyError
  | typeError
  | attributeError
deriving DecidableEq

/-- Python truthiness for JSON values. -/
def pyTruthy : PyJson → Bool
  | .null => false
  | .num q => !(q.num == 0)
  | .str s => !(s == "")
  | .arr xs => !xs.isEmpty
  | .obj kvs => !kvs.isEmpty

/-- Association-list lookup for a JSON object (first binding wins). -/
def pyLookup (kvs : List (String × PyJson)) (k : String) : Option PyJson :=
  (kvs.find? (fun kv => kv.1 = k)).map (fun kv => kv.2)

/-- Python `j.get(k, dflt)`: `AttributeError` when `j` is not a dict. -/
def pyDictGet (j : PyJson) (k : String) (dflt : PyJson) : Except UPyExc PyJson :=
  match j with
  | .obj kvs => .ok ((pyLookup kvs k).getD dflt)
  | _ => .error .attributeError

/-- Python `len(j)`: `TypeError` for values without a length. -/
def pyLen : PyJson → Except UPyExc Nat
  | .arr xs => .ok xs.length
  | .str s => .ok s.data.length
  | .obj kvs => .ok kvs.length
  | _ => .error .typeError

/-- Python `j[i]` for a natural index known to be in range: a list yields the
element, a string yields a one-character string, a dict raises `KeyError`
(JSON object keys are strings, never the integer `i`). -/
def pyIndexNat (j : PyJson) (i : Nat) : Except UPyExc PyJson :=
  match j with
  | .arr xs => .ok (xs.getD i .null)
  | .str s => .ok (.str (String.mk (List.take 1 (s.data.drop i))))
  | .obj _ => .error .keyError
  | _ => .error .typeError

/-- How a scalar JSON property value lands in a DataFrame cell.  Non-scalar
values (lists/dicts) become opaque object cells. -/
def cellOfJson : PyJson → Cell
  | .null => .na
  | .num q => .num q
  | .str s => .str s
  | .arr _ => .pyObj
  | .obj _ => .pyObj

/-- `props.get("type", "earthquake").capitalize()` (src/data.py:158):
`AttributeError` unless the value is a string (`None.capitalize()` included). -/
def pyCapitalizeJson : PyJson → Except UPyExc String
  | .str s => .ok (pyCapitalize s)
  | _ => .error .attributeError

/-- `_mag_to_alert_level` applied to the raw JSON magnitude value
(src/data.py:54-62): `pd.isna(None)` is true, numbers compare against the
thresholds, and any other value raises `TypeError` when compared with a float. -/
def mag_to_alert_level_dyn : PyJson → Except UPyExc String
  | .null => .ok ("Unknown")
  | .num q => .ok (mag_to_alert_level (some q))
  | _ => .error .typeError

/-- `_extract_country` applied to the raw JSON place value (src/data.py:65-72):
falsy values (`None`, `""`, empty containers) yield `"Unknown"`; a truthy
non-string raises `AttributeError` at `.rsplit`. -/
def extract_country_dyn (placeJson : PyJson) : Except UPyExc String :=
  if pyTruthy placeJson then
    match placeJson with
    | .str s => .ok (extract_country s)
    | _ => .error .attributeError
  else .ok ("Unknown")

/-- Lines 146-150 of src/data.py: `if time_ms:` is Python truthiness, so a
missing `time`, `null`, `0` and `0.0` all yield `pd.NaT`; a truthy number `q`
yields `datetime.fromtimestamp(q / 1000, tz=utc)`, the instant `q` in epoch
milliseconds; a truthy non-number raises `TypeError` at the division. -/
def time_to_cell (t : PyJson) : Except UPyExc Cell :=
  if pyTruthy t then
    match t with
    | .num q => .ok (Cell.ts q)
    | _ => .error .typeError
  else .ok Cell.na

/-- Representative model of Python `str()` on a scalar; the digit-for-digit
rendering of floats is irrelevant to every claim and not modelled. -/
def pyStrModel : PyJson → String
  | .null => "None"
  | .num q => "num:" ++ toString q.num ++ "/" ++ toString q.den
  | .str s => s
  | .arr _ => "<list>"
  | .obj _ => "<dict>"

/-- `f"M{mag}" if mag else ""` (src/data.py:172). -/
def severity_text_of (magJson : PyJson) : String :=
  if pyTruthy magJson then "M" ++ pyStrModel magJson else ""

/-- `f"Felt by {props.get('felt', 0) or 0}" if props.get("felt") else ""`
(src/data.py:173). -/
def population_text_of (feltJson : PyJson) : String :=
  if pyTruthy feltJson then
    "Felt by " ++ pyStrModel (if pyTruthy feltJson then feltJson else .num (mkRat 0 1))
  else ""

/-! ## `geojson_to_df` (src/data.py:136-187) -/

/-- The 18 keys of the row dictionary built for each feature
(src/data.py:155-174), in insertion order. -/
def usgs_base_cols : List String :=
  ["title", "link", "event_type", "alert_level", "country", "magnitude",
   "magnitude_type", "depth_km", "latitude", "longitude", "place",
   "alert_score", "tsunami", "felt", "status", "main_time", "severity_text",
   "population_text"]

/-- Columns of the canonical USGS table, `date_utc` appended
(src/data.py:180). -/
def usgs_cols : List String := usgs_base_cols ++ ["date_utc"]

/-- `coords[i] if len(coords) > i else None` (src/data.py:163-165), given the
already-computed length `n` of `coords`. -/
def coordCell (coords : PyJson) (n i : Nat) : Except UPyExc Cell :=
  if n > i then cellOfJson <$> pyIndexNat coords i else pure Cell.na

/-- The loop body of `geojson_to_df` (src/data.py:141-174) for one feature,
with each fallible Python operation sequenced in source order.  The resulting
row lists the 18 cells in the order of `usgs_base_cols`. -/
def featureToRow (feat : PyJson) : Except UPyExc (List Cell) := do
  let props ← pyDictGet feat ("properties") (.obj [])
  let geom ← pyDictGet feat ("geometry") (.obj [])
  let coords ← pyDictGet geom ("coordinates") (.arr [.null, .null, .null])
  let timeJson ← pyDictGet props ("time") .null
  let mainTimeCell ← time_to_cell timeJson
  let magJson ← pyDictGet props ("mag") .null
  let placeJson ← pyDictGet props ("place") (.str "")
  let titleJson ← pyDictGet props ("title") placeJson
  let linkJson ← pyDictGet props ("url") (.str "")
  let typeJson ← pyDictGet props ("type") (.str "earthquake")
  let eventType ← pyCapitalizeJson typeJson
  let alertLevel ← mag_to_alert_level_dyn magJson
  let country ← extract_country_dyn placeJson
  let magTypeJson ← pyDictGet props ("magType") (.str "")
  let nCoords ← pyLen coords
  let depthCell ← coordCell coords nCoords 2
  let latCell ← coordCell coords nCoords 1
  let lonCell ← coordCell coords nCoords 0
  let scoreJson ← pyDictGet props ("sig") .null
  let tsunamiJson ← pyDictGet props ("tsunami") (.num (mkRat 0 1))
  let feltJson ← pyDictGet props ("felt") .null
  let statusJson ← pyDictGet props ("status") (.str "")
  pure [cellOfJson titleJson, cellOfJson linkJson, Cell.str eventType,
        Cell.str alertLevel, Cell.str country, cellOfJson magJson,
        cellOfJson magTypeJson, depthCell, latCell, lonCell,
        cellOfJson placeJson, cellOfJson scoreJson, cellOfJson tsunamiJson,
        cellOfJson feltJson, cellOfJson statusJson, mainTimeCell,
        Cell.str (severity_text_of magJson), Cell.str (population_text_of feltJson)]

/-- `data.get("features", [])` (src/data.py:138) followed by
`for feat in features` (line 141): iterating a non-sequence raises
`TypeError`; iterating a non-empty string or dict hands a string to
`feat.get`, which raises `AttributeError` at the first element. -/
def getFeatures (data : PyJson) : Except UPyExc (List PyJson) := do
  let fj ← pyDictGet data ("features") (.arr [])
  match fj with
  | .arr xs => .ok xs
  | .str s => if s == "" then .ok [] else .error .attributeError
  | .obj kvs => if kvs.isEmpty then .ok [] else .error .attributeError
  | _ => .error .typeError

/-- Sort key of a row for `df.sort_values("main_time")`: the timestamp cell at
`idx`, with every non-timestamp (`NaT`) treated as missing. -/
def tsKeyAt (idx : Nat) (r : List Cell) : Option ℚ :=
  match r.getD idx Cell.na with
  | .ts ms => some ms
  | _ => none

/-- Strict "comes before" on sort keys: missing keys (`NaT`) sort last
(pandas default `na_position="last"`). -/
def keyLtB : Option ℚ → Option ℚ → Bool
  | none, _ => false
  | some _, none => true
  | some a, some b => Rat.blt a b

def insertRowByKey (idx : Nat) (r : List Cell) : List (List Cell) → List (List Cell)
  | [] => [r]
  | x :: xs =>
    if keyLtB (tsKeyAt idx x) (tsKeyAt idx r) then x :: insertRowByKey idx r xs
    else r :: x :: xs

/-- Model of `df.sort_values("main_time", ascending=True)`
(src/data.py:181, src/app.py:145): one permutation of the rows that is
ascending in the key with missing keys last.  pandas is called with its
default `kind="quicksort"`, whose tie order is implementation-defined; this
model realises the stable permutation, and no theorem below about the source
relies on the tie order (see the treatment of the sortedness claim). -/
def sort_values (idx : Nat) : List (List Cell) → List (List Cell)
  | [] => []
  | r :: rs => insertRowByKey idx r (sort_values idx rs)

/-- `df["main_time"].dt.date` for one cell: the UTC day bucket of the instant
(floor of the epoch-millisecond value over 86,400,000); `NaT` stays missing. -/
def dateCellOfTs : Cell → Cell
  | .ts ms => .date (Int.fdiv ms.num (ms.den * 86400000))
  | _ => .na

/-- The three categorical columns refilled with `"Unknown"`
(src/data.py:184-186, 233-235; src/app.py:147-148, 173-175). -/
def cat_cols : List String := ["event_type", "alert_level", "country"]

def fillUnknown : Cell → Cell
  | .na => .str ("Unknown")
  | c => c

/-- `df[col] = df[col].fillna("Unknown")` over the categorical columns, by
column name. -/
def fillCatRow (cols : List String) (r : List Cell) : List Cell :=
  List.zipWith (fun cn c => if cn ∈ cat_cols then fillUnknown c else c) cols r

/-- The `for feat in features` loop (src/data.py:141-174): one row appended
per feature, aborting at the first feature whose processing raises. -/
def rowsOfFeatures : List PyJson → Except UPyExc (List (List Cell))
  | [] => .ok []
  | f :: fs => do
    let r ← featureToRow f
    let rs ← rowsOfFeatures fs
    pure (r :: rs)

/-- `geojson_to_df` (src/data.py:136-187): rows from the features, empty
DataFrame (no columns) when there are no rows, else `date_utc` derived from
`main_time`, rows sorted ascending by `main_time`, and the categorical
columns refilled. -/
def geojson_to_df (data : PyJson) : Except UPyExc Df := do
  let feats ← getFeatures data
  let rows ← rowsOfFeatures feats
  if rows.isEmpty then pure (Df.mk [] [])
  else
    let rows2 := rows.map (fun r => r ++ [dateCellOfTs (r.getD 15 Cell.na)])
    let rows3 := sort_values 15 rows2
    let rows4 := rows3.map (fillCatRow usgs_cols)
    pure (Df.mk usgs_cols rows4)

/-! ## The CSV cache store

`df.to_csv(path, index=False)` writes the header row and each cell as
delimited text: missing values and empty strings both become an empty field,
numbers their decimal rendering, timestamps and dates pandas' text rendering
(kept as the payload of `tsText`/`dateText`, see `Cell`).  `pd.read_csv`
re-infers each column: a column whose every field is empty, an NA token or
numeric text becomes a numeric column; any other column keeps its fields as
strings with empty fields and NA tokens as `NaN`. -/

inductive CsvCell
  | empty
  | text (s : String)
  | numText (q : ℚ)
  | tsText (ms : ℚ)
  | dateText (d : ℤ)
deriving DecidableEq

structure CsvTable where
  header : List String
  rows : List (List CsvCell)
deriving DecidableEq

/-- One cell under `to_csv`.  An empty string is written as an empty field,
indistinguishable in the file from a missing value. -/
def writeCell : Cell → CsvCell
  | .na => .empty
  | .str s => if s = "" then .empty else .text s
  | .num q => .numText q
  | .ts ms => .tsText ms
  | .date d => .dateText d
  | .tsStr ms => .tsText ms
  | .dateStr d => .dateText d
  | .pyObj => .text ("<object>")

/-- `df.to_csv(path, index=False)` (src/data.py:213, src/app.py:157). -/
def to_csv (df : Df) : CsvTable := CsvTable.mk df.cols (df.rows.map (List.map writeCell))

/-- pandas' default NA tokens: a field equal to one of these reads as `NaN`. -/
def na_tokens : List String :=
  ["", "#N/A", "#N/A N/A", "#NA", "-1.#IND", "-1.#QNAN", "-NaN", "-nan",
   "1.#IND", "1.#QNAN", "<NA>", "N/A", "NA", "NULL", "NaN", "None",
   "n/a", "nan", "null"]

def isDigitChar (c : Char) : Bool := '0' ≤ c && c ≤ '9'

def digitsToNat (ds : List Char) : Nat :=
  ds.foldl (fun n c => n * 10 + (c.toNat - 48)) 0

/-- The exact decimal `sgn * mant * 10 ^ exp10`. -/
def decToRat (sgn : Int) (mant : Nat) (exp10 : Int) : ℚ :=
  if 0 ≤ exp10 then mkRat (sgn * (mant * 10 ^ exp10.toNat : Nat)) 1
  else mkRat (sgn * mant) (10 ^ (-exp10).toNat)

/-- Numeric text as recognised by `pd.read_csv` / `pd.to_numeric`: an
optional sign, digits with an optional fraction, an optional exponent
(whitespace-padded or infinity forms are not modelled). -/
def parseNumeric (s : String) : Option ℚ :=
  let cs := s.data
  let sgnCs : Int × List Char :=
    match cs with
    | '-' :: rest => (-1, rest)
    | '+' :: rest => (1, rest)
    | _ => (1, cs)
  let intPart := sgnCs.2.takeWhile isDigitChar
  let rest1 := sgnCs.2.dropWhile isDigitChar
  let fracRest : List Char × List Char :=
    match rest1 with
    | '.' :: r => (r.takeWhile isDigitChar, r.dropWhile isDigitChar)
    | _ => ([], rest1)
  if intPart.isEmpty && fracRest.1.isEmpty then none
  else
    let mant := digitsToNat (intPart ++ fracRest.1)
    let fracLen : Int := fracRest.1.length
    match fracRest.2 with
    | [] => some (decToRat sgnCs.1 mant (-fracLen))
    | e :: r =>
      if e = 'e' || e = 'E' then
        let esgn : Int × List Char :=
          match r with
          | '-' :: r2 => (-1, r2)
          | '+' :: r2 => (1, r2)
          | _ => (1, r)
        if esgn.2.isEmpty || !esgn.2.all isDigitChar then none
        else some (decToRat sgnCs.1 mant (esgn.1 * digitsToNat esgn.2 - fracLen))
      else none

/-- Whether a raw field is compatible with numeric type inference for its
column (NA tokens do not block a numeric column). -/
def csvCellNumericOk : CsvCell → Bool
  | .empty => true
  | .text s => (parseNumeric s).isSome || s ∈ na_tokens
  | .numText _ => true
  | .tsText _ => false
  | .dateText _ => false

def colIsNumeric (t : CsvTable) (j : Nat) : Bool :=
  t.rows.all (fun r => csvCellNumericOk (r.getD j .empty))

/-- Representative decimal rendering of a number (a numeric field read back
inside a non-numeric column stays a string); no cache written by this
pipeline puts a numeric field in a non-numeric column, and no claim touches
the digits. -/
def numRender (q : ℚ) : String := "num:" ++ toString q.num ++ "/" ++ toString q.den

/-- One field of a column that inferred numeric. -/
def readCellNumeric : CsvCell → Cell
  | .empty => .na
  | .text s =>
    if s ∈ na_tokens then .na
    else match parseNumeric s with
      | some q => .num q
      | none => .na
  | .numText q => .num q
  | .tsText _ => .na
  | .dateText _ => .na

/-- One field of a column that stayed textual. -/
def readCellObject : CsvCell → Cell
  | .empty => .na
  | .text s => if s ∈ na_tokens then .na else .str s
  | .numText q => .str (numRender q)
  | .tsText ms => .tsStr ms
  | .dateText d => .dateStr d

/-- `pd.read_csv` (src/data.py:223, src/app.py:162). -/
def read_csv (t : CsvTable) : Df :=
  Df.mk t.header
    (t.rows.map (fun r => (List.range t.header.length).map
      (fun j =>
        if colIsNumeric t j then readCellNumeric (r.getD j .empty)
        else readCellObject (r.getD j .empty))))

/-- `pd.to_datetime(col, utc=True, errors="coerce")` on one cell: timestamp
text recovers its instant, a numeric value is interpreted as nanoseconds
since the epoch, date text becomes midnight of that day, anything
unparseable becomes `NaT`.  (Date-like free strings not written by this
pipeline would also parse; they are modelled as `NaT` and reached by no
claim.) -/
def to_datetime_cell : Cell → Cell
  | .ts ms => .ts ms
  | .tsStr ms => .ts ms
  | .num q => .ts (mkRat q.num (q.den * 1000000))
  | .dateStr d => .ts (mkRat (d * 86400000) 1)
  | .date d => .ts (mkRat (d * 86400000) 1)
  | _ => .na

/-- `pd.to_datetime(col, errors="coerce").dt.date` on one cell. -/
def to_date_cell (c : Cell) : Cell := dateCellOfTs (to_datetime_cell c)

/-- The re-typing pass applied to a cache snapshot after `pd.read_csv`
(src/data.py:225-235, src/app.py:164-175): the named datetime columns through
`pd.to_datetime`, `date_utc` through `to_datetime(...).dt.date`, and the
categorical columns refilled with `"Unknown"`; columns are looked up by name
and only coerced when present. -/
def coerceRow (cols dtCols : List String) (r : List Cell) : List Cell :=
  List.zipWith
    (fun cn c =>
      if cn ∈ dtCols then to_datetime_cell c
      else if cn = "date_utc" then to_date_cell c
      else if cn ∈ cat_cols then fillUnknown c
      else c)
    cols r

/-- `pd.read_csv` plus the re-typing pass, as run on the cache-fallback path. -/
def read_cache (dtCols : List String) (t : CsvTable) : Df :=
  let d := read_csv t
  Df.mk d.cols (d.rows.map (coerceRow d.cols dtCols))

/-! ## `load_data_with_cache` (src/data.py:190-239) -/

/-- The exception classes caught by `except (requests.RequestException,
ValueError, KeyError)` (src/data.py:219). -/
def usgs_caught : UPyExc → Bool
  | .requestException => true
  | .valueError => true
  | .keyError => true
  | .typeError => false
  | .attributeError => false

def usgs_cache_msg : String := "⚠️ USGS fetch failed — using cached data."

def usgs_no_cache_msg : String := "⚠️ USGS fetch failed and no cache found."

namespace Data

/-- `load_data_with_cache` (src/data.py:190-239).  The environment is passed
in: `fetched` is the outcome of `fetch_usgs_geojson` (the decoded JSON body,
or the exception the network call or `r.json()` raised); `xmlOk` is whether
the QuakeML side-channel fetch/save succeeds (its failure is logged only,
lines 205-209); `writeOk` is whether `df.to_csv` succeeds (an `OSError` is
logged only, lines 212-215); `cacheFile` is the current content of
`USGS_cache.csv` (`none`: no file).  The result is the returned pair, or the
exception the call re-raises. -/
def load_data_with_cache (fetched : Except UPyExc PyJson) (xmlOk writeOk : Bool)
    (cacheFile : Option CsvTable) : Except UPyExc (Df × Option String) :=
  let attempt : Except UPyExc Df := do
    let geojson ← fetched
    geojson_to_df geojson
  match attempt with
  | .ok df =>
    let _ := xmlOk
    let _ := writeOk
    .ok (df, none)
  | .error e =>
    if usgs_caught e then
      match cacheFile with
      | some t => .ok (read_cache ["main_time"] t, some usgs_cache_msg)
      | none => .ok (Df.mk [] [], some usgs_no_cache_msg)
    else .error e

/-- `fetch_usgs_xml` (src/data.py:105-123): after `raise_for_status`, the body
text is returned unchanged — the function performs no content sniffing of any
kind. -/
def fetch_usgs_xml (body : String) : Except UPyExc String := .ok body

end Data

/-! ## The GDACS pipeline (src/app.py) -/

/-- Exception classes flowing through src/app.py's `load_data_with_cache`,
whose `except Exception` clause (line 160) catches all of them.
`valueErrorHtml` and `valueErrorGeneric` are the two `ValueError`s raised by
`fetch_gdacs_rss_xml` (lines 73-77 and 80-84); `parseError` is
`xml.etree.ElementTree.ParseError` from `ET.fromstring`; `osError` covers
`df.to_csv` failures (line 157, inside the same `try`). -/
inductive GExc
  | requestException
  | valueErrorHtml
  | valueErrorGeneric
  | parseError
  | osError
  | otherError
deriving DecidableEq

/-- Representative `str(e)` rendering per exception class; only its being
interpolated into the diagnostic matters to any claim. -/
def gexc_str : GExc → String
  | .requestException => "connection error"
  | .valueErrorHtml => "GDACS returned HTML instead of XML (blocked/redirect/proxy page)."
  | .valueErrorGeneric => "Response does not look like XML."
  | .parseError => "syntax error while parsing XML"
  | .osError => "could not write cache file"
  | .otherError => "unexpected error"

namespace App

/-- The body validation of `fetch_gdacs_rss_xml` (src/app.py:66-86) given the
decoded response text of a 2xx response: strip every leading byte-order mark,
strip surrounding whitespace, lower-case the first 200 characters, raise the
HTML-specific `ValueError` when that head starts with an HTML document marker
or contains \"<html\" anywhere, raise the generic `ValueError` when the text
does not start with \"<\", else return the stripped text. -/
def fetch_gdacs_rss_xml (raw : String) : Except GExc String :=
  let text := pyStrip (pyLstripBom raw)
  let head := pyLower (pyTake 200 text)
  if pyStartsWith head ("<!doctype html") || pyStartsWith head ("<html")
      || pyContains head ("<html") then
    .error .valueErrorHtml
  else if !pyStartsWith text ("<") then
    .error .valueErrorGeneric
  else .ok text

end App

/-! ### RFC-822 date parsing (`_parse_rfc822`, src/app.py:26-34) -/

/-- Split a character list at every occurrence of `sep`. -/
def splitOnChar (sep : Char) : List Char → List (List Char)
  | [] => [[]]
  | c :: cs =>
    let rest := splitOnChar sep cs
    if c = sep then [] :: rest
    else
      match rest with
      | [] => [[c]]
      | p :: ps => (c :: p) :: ps

def is_leap_year (y : Int) : Bool :=
  (Int.emod y 4 == 0 && Int.emod y 100 != 0) || Int.emod y 400 == 0

def days_in_month (y m : Int) : Int :=
  if m = 2 then (if is_leap_year y then 29 else 28)
  else if m = 4 || m = 6 || m = 9 || m = 11 then 30
  else 31

/-- Days since 1970-01-01 of the civil date `(y, m, d)` (proleptic Gregorian,
Euclidean divisions). -/
def days_from_civil (y m d : Int) : Int :=
  let yy := if m ≤ 2 then y - 1 else y
  let era := Int.fdiv yy 400
  let yoe := yy - era * 400
  let mp := Int.emod (m + 9) 12
  let doy := Int.fdiv (153 * mp + 2) 5 + d - 1
  let doe := yoe * 365 + Int.fdiv yoe 4 - Int.fdiv yoe 100 + doy
  era * 146097 + doe - 719468

def month_names : List String :=
  ["jan", "feb", "mar", "apr", "may", "jun", "jul", "aug", "sep", "oct", "nov", "dec"]

def day_names : List String :=
  ["mon", "tue", "wed", "thu", "fri", "sat", "sun"]

/-- A 1- or 2-digit (or up to `maxLen`-digit) numeric token in `[lo, hi]`. -/
def parseBoundedNat (cs : List Char) (maxLen lo hi : Nat) : Option Nat :=
  if cs.isEmpty || cs.length > maxLen || !cs.all isDigitChar then none
  else
    let v := digitsToNat cs
    if lo ≤ v && v ≤ hi then some v else none

/-- Index (1-based) of a name in a list, compared case-insensitively
(`strptime` matches names ignoring case). -/
def nameIndex1 (names : List String) (tok : List Char) : Option Nat :=
  match names.enum.find? (fun p => p.2 = pyLower (String.mk tok)) with
  | some p => some (p.1 + 1)
  | none => none

/-- `datetime.strptime(s, "%a, %d %b %Y %H:%M:%S %Z")` followed by
`.replace(tzinfo=timezone.utc)`: epoch milliseconds on success, `none` on
any `ValueError` (bad shape, unknown name, field out of range, or an
impossible day for the month — `strptime` builds the `datetime`, which
validates).  `%Z` accepts `GMT`/`UTC` (case-insensitively); the weekday name
is matched but not checked against the date, as in CPython. -/
def strptime_rfc822_ms (s : String) : Option ℚ :=
  match splitOnChar ' ' s.data with
  | [tok0, tok1, tok2, tok3, tok4, tok5] =>
    match tok0.reverse with
    | ',' :: dayRev =>
      match nameIndex1 day_names dayRev.reverse,
            parseBoundedNat tok1 2 1 31,
            nameIndex1 month_names tok2,
            parseBoundedNat tok3 4 1 9999 with
      | some _, some d, some m, some y =>
        match splitOnChar ':' tok4 with
        | [hTok, miTok, sTok] =>
          match parseBoundedNat hTok 2 0 23, parseBoundedNat miTok 2 0 59,
                parseBoundedNat sTok 2 0 61 with
          | some h, some mi, some sec =>
            if (pyLower (String.mk tok5) = "gmt" || pyLower (String.mk tok5) = "utc")
                && (d : Int) ≤ days_in_month y m && sec ≤ 59 then
              some (mkRat ((days_from_civil y m d * 86400
                            + h * 3600 + mi * 60 + sec) * 1000) 1)
            else none
          | _, _, _ => none
        | _ => none
      | _, _, _, _ => none
    | _ => none
  | _ => none

/-- `_parse_rfc822` (src/app.py:26-34): falsy input (`None` from a missing
node, or an empty string) is `NaT`; otherwise the stripped text is parsed and
any failure is swallowed into `NaT`. -/
def parse_rfc822 (s : Option String) : Cell :=
  match s with
  | none => Cell.na
  | some t =>
    if t = "" then Cell.na
    else
      match strptime_rfc822_ms (pyStrip t) with
      | some ms => Cell.ts ms
      | none => Cell.na

/-! ### `rss_to_df` (src/app.py:89-150)

`ET.fromstring` on well-formed XML yields the item elements; each optional
field below is the raw text of the named node (`none` when the node is
missing or has no text), and each attribute likewise.  Malformed XML raises
`ParseError`, which reaches `load_data_with_cache` as `GExc.parseError`. -/

structure RssItem where
  title : Option String := none
  description : Option String := none
  link : Option String := none
  eventtype : Option String := none
  alertlevel : Option String := none
  country : Option String := none
  iso3 : Option String := none
  eventid : Option String := none
  episodeid : Option String := none
  severity : Option String := none
  population : Option String := none
  alertscore : Option String := none
  lat : Option String := none
  long : Option String := none
  pubDate : Option String := none
  dateadded : Option String := none
  datemodified : Option String := none
  fromdate : Option String := none
  todate : Option String := none
  severityValueAttr : Option String := none
  severityUnitAttr : Option String := none
  populationValueAttr : Option String := none
  populationUnitAttr : Option String := none
deriving DecidableEq

/-- `_find_text` (src/app.py:37-43) under a default: the node text stripped,
else the default. -/
def find_text (raw : Option String) (dflt : String) : String :=
  match raw with
  | some t => pyStrip t
  | none => dflt

/-- A `("text", path, default)` field of the `FIELDS` table (src/app.py:94-117). -/
def textFieldCell (raw : Option String) (dflt : String) : Cell :=
  Cell.str (find_text raw dflt)

/-- A `("num", path, None)` field: `pd.to_numeric(_find_text(...), errors="coerce")`. -/
def numFieldCell (raw : Option String) : Cell :=
  match raw with
  | some t =>
    match parseNumeric (pyStrip t) with
    | some q => Cell.num q
    | none => Cell.na
  | none => Cell.na

/-- A `("date", path, None)` field: `_parse_rfc822(_find_text(..., None))`. -/
def dateFieldCell (raw : Option String) : Cell :=
  parse_rfc822 (raw.map pyStrip)

/-- A `value`/`unit` attribute pair (src/app.py:131-134): attributes are not
stripped (`_find_attr` returns `el.attrib.get(attr, default)` verbatim). -/
def attrNumCell (raw : Option String) : Cell :=
  match raw with
  | some t =>
    match parseNumeric t with
    | some q => Cell.num q
    | none => Cell.na
  | none => Cell.na

/-- The 23 columns of one RSS row (src/app.py:94-134), in insertion order. -/
def gdacs_base_cols : List String :=
  ["title", "description", "link", "event_type", "alert_level", "country",
   "iso3", "event_id", "episode_id", "severity_text", "population_text",
   "alert_score", "latitude", "longitude", "pub_date", "date_added",
   "date_modified", "from_date", "to_date", "severity_value", "severity_unit",
   "population_value", "population_unit"]

def gdacs_cols : List String := gdacs_base_cols ++ ["main_time", "date_utc"]

def rssItemToRow (it : RssItem) : List Cell :=
  [textFieldCell it.title (""), textFieldCell it.description (""),
   textFieldCell it.link (""), textFieldCell it.eventtype ("Unknown"),
   textFieldCell it.alertlevel ("Unknown"), textFieldCell it.country ("Unknown"),
   textFieldCell it.iso3 (""), textFieldCell it.eventid (""),
   textFieldCell it.episodeid (""), textFieldCell it.severity (""),
   textFieldCell it.population (""), numFieldCell it.alertscore,
   numFieldCell it.lat, numFieldCell it.long, dateFieldCell it.pubDate,
   dateFieldCell it.dateadded, dateFieldCell it.datemodified,
   dateFieldCell it.fromdate, dateFieldCell it.todate,
   attrNumCell it.severityValueAttr,
   Cell.str (it.severityUnitAttr.getD ""),
   attrNumCell it.populationValueAttr,
   Cell.str (it.populationUnitAttr.getD "")]

/-- `df["main_time"] = pd.to_datetime(df["from_date"].fillna(df["pub_date"]),
utc=True, errors="coerce")` (src/app.py:143) for one row: `from_date` is at
index 17 and `pub_date` at index 14. -/
def gdacsMainTimeCell (r : List Cell) : Cell :=
  to_datetime_cell
    (match r.getD 17 Cell.na with
     | Cell.na => r.getD 14 Cell.na
     | c => c)

/-- `rss_to_df` (src/app.py:89-150): one row per item; empty DataFrame with
no columns when there are no items; else `main_time` and `date_utc` appended,
rows sorted ascending by `main_time`, categorical columns refilled. -/
def rss_to_df (items : List RssItem) : Df :=
  let rows := items.map rssItemToRow
  if rows.isEmpty then Df.mk [] []
  else
    let rows2 := rows.map (fun r => r ++ [gdacsMainTimeCell r])
    let rows3 := rows2.map (fun r => r ++ [dateCellOfTs (r.getD 23 Cell.na)])
    let rows4 := sort_values 23 rows3
    let rows5 := rows4.map (fillCatRow gdacs_cols)
    Df.mk gdacs_cols rows5

def gdacs_dt_cols : List String :=
  ["pub_date", "date_added", "date_modified", "from_date", "to_date", "main_time"]

def gdacs_cache_msg (e : GExc) : String :=
  "GDACS fetch failed — using cached file. Error: " ++ gexc_str e

def gdacs_no_cache_msg (e : GExc) : String :=
  "GDACS fetch failed and no cache found. Error: " ++ gexc_str e

namespace App

/-- `load_data_with_cache` (src/app.py:153-179).  `fetchParse` is the joint
outcome of `fetch_gdacs_rss_xml` and `ET.fromstring` (the parsed items, or
whichever exception was raised); `writeOk` is whether `df.to_csv` (line 157)
succeeds — the write sits INSIDE the `try`, so its failure falls into the
same `except Exception` fallback as a fetch failure; `cacheFile` is the
current content of `GDACS_cache.csv`.  All exceptions are caught, so the
function always returns a pair. -/
def load_data_with_cache (fetchParse : Except GExc (List RssItem)) (writeOk : Bool)
    (cacheFile : Option CsvTable) : Df × Option String :=
  let fallback : GExc → Df × Option String := fun e =>
    match cacheFile with
    | some t => (read_cache gdacs_dt_cols t, some (gdacs_cache_msg e))
    | none => (Df.mk [] [], some (gdacs_no_cache_msg e))
  match fetchParse with
  | .error e => fallback e
  | .ok items =>
    let df := rss_to_df items
    if writeOk then (df, none) else fallback .osError

end App

/-! ## Concrete sample inputs used by the settled claims -/

/-- A well-formed USGS feature (magnitude 6.5, place with a comma, timestamp
one day plus half a second after the epoch). -/
def sampleFeature : PyJson :=
  .obj [("properties", .obj
          [("mag", .num (mkRat 65 10)),
           ("place", .str ("7 km E of Lakatoro, Vanuatu")),
           ("time", .num (mkRat 86400500 1)),
           ("sig", .num (mkRat 600 1)),
           ("type", .str ("earthquake")),
           ("status", .str ("reviewed"))]),
        ("geometry", .obj
          [("coordinates", .arr
            [.num (mkRat 1675 10), .num (mkRat (-161) 10), .num (mkRat 25 1)])])]

def sampleBody : PyJson := .obj [("features", .arr [sampleFeature])]

/-- The canonical table parsed from `sampleBody`. -/
def sampleUsgsDf : Df :=
  match geojson_to_df sampleBody with
  | .ok df => df
  | .error _ => Df.mk [] []

/-- A cache snapshot: `sampleUsgsDf` as written by `to_csv`. -/
def sampleUsgsCache : CsvTable := to_csv sampleUsgsDf

/-- A well-formed JSON body whose PARSE fails with a caught class: the
`coordinates` value is a dict of length 3, so `len(coords) > 2` holds and
`coords[2]` subscripts a dict with the integer 2 — `KeyError`
(src/data.py:163), one of the classes the USGS handler catches. -/
def c1ParseFailBody : PyJson :=
  .obj [("features", .arr
    [.obj [("properties", .obj []),
           ("geometry", .obj [("coordinates",
              .obj [("a", .null), ("b", .null), ("c", .null)])])]])]

/-- A USGS feature whose place string ends in a comma, so the text after the
last comma is empty. -/
def c5Feature : PyJson :=
  .obj [("properties", .obj
          [("mag", .num (mkRat 5 1)),
           ("place", .str ("France,")),
           ("time", .num (mkRat 1700000000000 1))]),
        ("geometry", .obj
          [("coordinates", .arr
            [.num (mkRat 2 1), .num (mkRat 46 1), .num (mkRat 10 1)])])]

def c5Body : PyJson := .obj [("features", .arr [c5Feature])]

/-- The canonical table parsed from `c5Body`. -/
def c5Df : Df :=
  match geojson_to_df c5Body with
  | .ok df => df
  | .error _ => Df.mk [] []

/-- A GDACS RSS item with an event type, a country and a publication date. -/
def sampleRssItem : RssItem :=
  { eventtype := some ("EQ"), country := some ("Vanuatu"),
    alertlevel := some ("Orange"),
    pubDate := some ("Wed, 17 Dec 2025 15:15:04 GMT") }

/-- A feature whose `time` property is exactly the epoch instant `0`. -/
def c10feat : PyJson :=
  .obj [("properties", .obj [("time", .num (mkRat 0 1)),
                             ("mag", .num (mkRat 6 1))]),
        ("geometry", .obj [])]

/-- The row parsed from `c10feat`. -/
def c10row : List Cell :=
  match featureToRow c10feat with
  | .ok r => r
  | .error _ => []

/-- The row parsed from a feature with empty properties and geometry. -/
def bareFeatureRow : List Cell :=
  match featureToRow (.obj [("properties", .obj []), ("geometry", .obj [])]) with
  | .ok r => r
  | .error _ => []

/-! ## Row predicates for the cache round-trip -/

/-- A categorical value that survives the CSV round-trip unchanged: a string
pandas reads back neither as a missing value nor as a number.  (The empty
string is an NA token.) -/
def okCatB : Cell → Bool
  | .str s => !(s ∈ na_tokens : Bool) && (parseNumeric s).isNone
  | _ => false

/-- A `main_time` value as this pipeline produces it: a timestamp or `NaT`. -/
def okTsCellB : Cell → Bool
  | .na => true
  | .ts _ => true
  | _ => false

/-- A `date_utc` value as this pipeline produces it: a date or `NaT`. -/
def okDateCellB : Cell → Bool
  | .na => true
  | .date _ => true
  | _ => false

/-- A numeric field as the data model prescribes it (spec §3: "either
well-formed numbers or absent"): a number or missing. -/
def okNumCellB : Cell → Bool
  | .na => true
  | .num _ => true
  | _ => false

/-- A canonical USGS row whose claimed-identical fields survive the CSV
round-trip: 19 cells, round-trippable categorical strings at the
`event_type`/`alert_level`/`country` positions, a timestamp-or-missing
`main_time`, a date-or-missing `date_utc`, and number-or-missing values in
the numeric columns (`magnitude`, `depth_km`, `latitude`, `longitude`,
`alert_score`, `tsunami`, `felt`). -/
def usgsRowOkB (r : List Cell) : Bool :=
  r.length == 19 && okCatB (r.getD 2 .na) && okCatB (r.getD 3 .na)
    && okCatB (r.getD 4 .na) && okTsCellB (r.getD 15 .na)
    && okDateCellB (r.getD 18 .na)
    && okNumCellB (r.getD 5 .na) && okNumCellB (r.getD 7 .na)
    && okNumCellB (r.getD 8 .na) && okNumCellB (r.getD 9 .na)
    && okNumCellB (r.getD 11 .na) && okNumCellB (r.getD 12 .na)
    && okNumCellB (r.getD 13 .na)

/-- The fields of a USGS row named by the round-trip claim:
`(event_type, alert_level, country, main_time, date_utc)`. -/
def proj5 (r : List Cell) : List Cell :=
  [r.getD 2 Cell.na, r.getD 3 Cell.na, r.getD 4 Cell.na,
   r.getD 15 Cell.na, r.getD 18 Cell.na]

/-- The numeric fields of a USGS row (`magnitude`, `depth_km`, `latitude`,
`longitude`, `alert_score`, `tsunami`, `felt`). -/
def projNum (r : List Cell) : List Cell :=
  [r.getD 5 Cell.na, r.getD 7 Cell.na, r.getD 8 Cell.na, r.getD 9 Cell.na,
   r.getD 11 Cell.na, r.getD 12 Cell.na, r.getD 13 Cell.na]

/-! # Helper lemmas -/

theorem mkRat_seven_eq : mkRat 7 1 = (7 : ℚ) := by
  norm_num [mkRat, Rat.normalize]

theorem mkRat_eleven_two_eq : mkRat 11 2 = (5.5 : ℚ) := by
  norm_num [mkRat, Rat.normalize]

theorem mkRat_four_eq : mkRat 4 1 = (4 : ℚ) := by
  norm_num [mkRat, Rat.normalize]

/-- Inversion of a successful `Except` bind. -/
theorem bind_ok {ε α β : Type} (x : Except ε α) (f : α → Except ε β) (b : β)
    (h : (x >>= f) = .ok b) : ∃ a, x = .ok a ∧ f a = .ok b := by
  cases x with
  | error e => simp [Bind.bind, Except.bind] at h
  | ok a => exact ⟨a, rfl, by simpa [Bind.bind, Except.bind] using h⟩

theorem ok_bind {ε α β : Type} (a : α) (f : α → Except ε β) :
    (Except.ok a : Except ε α) >>= f = f a := rfl

theorem error_bind {ε α β : Type} (e : ε) (f : α → Except ε β) :
    (Except.error e : Except ε α) >>= f = .error e := rfl

theorem bind_congr_fun {ε α β : Type} (x : Except ε α) (f g : α → Except ε β)
    (h : ∀ a, f a = g a) : x >>= f = x >>= g := by
  cases x <;> simp [Bind.bind, Except.bind, h]

/-! # The claims -/

/-- Claim C4: for every GeoJSON feature, the derived alert level is
`"Red"` when the magnitude is at least 7.0, `"Orange"` when it is in
[5.5, 7.0), `"Green"` otherwise (including below 4.0), and `"Unknown"`
exactly when the magnitude is absent. -/
theorem C4_alert_level_thresholds (m : Option ℚ) :
    (mag_to_alert_level m = "Unknown" ↔ m = none)
    ∧ (∀ q : ℚ, m = some q →
        ((7 ≤ q → mag_to_alert_level m = "Red")
         ∧ (5.5 ≤ q → q < 7 → mag_to_alert_level m = "Orange")
         ∧ (q < 5.5 → mag_to_alert_level m = "Green"))) := by
  have h7 := mkRat_seven_eq
  have h55 := mkRat_eleven_two_eq
  have h4 := mkRat_four_eq
  constructor
  · cases m with
    | none => simp [mag_to_alert_level]
    | some q =>
      simp only [mag_to_alert_level, h7, h55, h4]
      constructor
      · intro h
        split_ifs at h <;> simp_all
      · intro h
        exact absurd h (by simp)
  · rintro q rfl
    refine ⟨fun hq => ?_, fun hq1 hq2 => ?_, fun hq => ?_⟩
    · simp only [mag_to_alert_level, h7, h55, h4]
      rw [if_pos (by exact hq)]
    · simp only [mag_to_alert_level, h7, h55, h4]
      rw [if_neg (by linarith), if_pos (by exact hq1)]
    · simp only [mag_to_alert_level, h7, h55, h4]
      rw [if_neg (by linarith), if_neg (by linarith)]
      split_ifs <;> rfl

/-- Witness for C4 at magnitudes 8, 6, 3 and absent. -/
theorem C4_alert_level_thresholds_witness :
    mag_to_alert_level (some 8) = "Red"
    ∧ mag_to_alert_level (some 6) = "Orange"
    ∧ mag_to_alert_level (some 3) = "Green"
    ∧ mag_to_alert_level none = "Unknown" :=
  ⟨((C4_alert_level_thresholds (some 8)).2 8 rfl).1 (by norm_num),
   ((C4_alert_level_thresholds (some 6)).2 6 rfl).2.1 (by norm_num) (by norm_num),
   ((C4_alert_level_thresholds (some 3)).2 3 rfl).2.2 (by norm_num),
   (C4_alert_level_thresholds none).1.mpr rfl⟩

theorem takeWhile_of_all {α : Type} (p : α → Bool) (l : List α)
    (h : ∀ x ∈ l, p x = true) : l.takeWhile p = l := by
  induction l with
  | nil => rfl
  | cons a as ih =>
    rw [List.takeWhile_cons, h a (by simp)]
    simpa using ih (fun x hx => h x (by simp [hx]))

theorem dropWhile_of_all {α : Type} (p : α → Bool) (l : List α)
    (h : ∀ x ∈ l, p x = true) : l.dropWhile p = [] := by
  induction l with
  | nil => rfl
  | cons a as ih =>
    rw [List.dropWhile_cons, h a (by simp)]
    simpa using ih (fun x hx => h x (by simp [hx]))

theorem takeWhile_append_stop {α : Type} (p : α → Bool) (xs : List α) (y : α)
    (ys : List α) (hxs : ∀ x ∈ xs, p x = true) (hy : p y = false) :
    (xs ++ y :: ys).takeWhile p = xs := by
  induction xs with
  | nil => simp [List.takeWhile_cons, hy]
  | cons a as ih =>
    rw [List.cons_append, List.takeWhile_cons, hxs a (by simp)]
    simp only [if_true]
    rw [ih (fun x hx => hxs x (by simp [hx]))]

theorem dropWhile_append_stop {α : Type} (p : α → Bool) (xs : List α) (y : α)
    (ys : List α) (hxs : ∀ x ∈ xs, p x = true) (hy : p y = false) :
    (xs ++ y :: ys).dropWhile p = y :: ys := by
  induction xs with
  | nil => simp [List.dropWhile_cons, hy]
  | cons a as ih =>
    rw [List.cons_append, List.dropWhile_cons, hxs a (by simp)]
    simp only [if_true]
    exact ih (fun x hx => hxs x (by simp [hx]))

/-- `rsplit(sep, 1)` on a string not containing the separator. -/
theorem pyRsplit1_no_sep (sep : Char) (s : String) (h : sep ∉ s.data) :
    pyRsplit1 sep s = [s] := by
  have hall : ∀ x ∈ s.data.reverse, (decide (x ≠ sep)) = true := by
    intro x hx
    simp only [List.mem_reverse] at hx
    simp only [decide_eq_true_eq]
    exact fun hxs => h (hxs ▸ hx)
  unfold pyRsplit1
  rw [List.span_eq_take_drop _, takeWhile_of_all _ _ hall,
      dropWhile_of_all _ _ hall]

/-- `rsplit(sep, 1)` at the last separator: splitting
`pre ++ sep ++ post` with `post` separator-free yields `[pre, post]`. -/
theorem pyRsplit1_last (sep : Char) (pre post : String) (h : sep ∉ post.data) :
    pyRsplit1 sep (pre ++ String.mk [sep] ++ post) = [pre, post] := by
  have hall : ∀ x ∈ post.data.reverse, (decide (x ≠ sep)) = true := by
    intro x hx
    simp only [List.mem_reverse] at hx
    simp only [decide_eq_true_eq]
    exact fun hxs => h (hxs ▸ hx)
  have hdata : (pre ++ String.mk [sep] ++ post).data
      = pre.data ++ sep :: post.data := by
    simp [String.data_append]
  unfold pyRsplit1
  rw [hdata]
  have hrev : (pre.data ++ sep :: post.data).reverse
      = post.data.reverse ++ sep :: pre.data.reverse := by
    simp [List.reverse_append]
  rw [hrev, List.span_eq_take_drop _,
      takeWhile_append_stop _ _ _ _ hall (by simp),
      dropWhile_append_stop _ _ _ _ hall (by simp)]
  simp

theorem C9_counterexample :
    (extract_country ("") = "Unknown" ∧ ("Unknown" : String) ≠ "")
    ∧ (extract_country ("  Banda Sea  ") = "Banda Sea"
       ∧ ("Banda Sea" : String) ≠ "  Banda Sea  ") := by
  refine ⟨⟨by decide, by decide⟩, ⟨by decide, by decide⟩⟩

/-- Claim C9 as amended: the country is the text after the last comma
stripped of surrounding whitespace; with no comma present, the whole string
stripped of surrounding whitespace; an empty place string yields
`"Unknown"`. -/
theorem C9_amended (s : String) :
    (s = "" → extract_country s = "Unknown")
    ∧ (s ≠ "" → (',' ∉ s.data) → extract_country s = pyStrip s)
    ∧ (∀ pre post : String,
        s = pre ++ String.mk [','] ++ post → (',' ∉ post.data) →
        extract_country s = pyStrip post) := by
  refine ⟨fun h => by simp [extract_country, h], fun hne hnc => ?_, ?_⟩
  · rw [extract_country, if_neg hne, pyRsplit1_no_sep ',' s hnc]
  · rintro pre post rfl hnc
    have hne : pre ++ String.mk [','] ++ post ≠ "" := by
      intro h
      have := congrArg String.data h
      simp [String.data_append] at this
    rw [extract_country, if_neg hne, pyRsplit1_last ',' pre post hnc]

/-- Witness for C9 at the specification's own example. -/
theorem C9_amended_witness :
    extract_country ("7 km E of Lakatoro, Vanuatu") = "Vanuatu" := by
  have h := (C9_amended ("7 km E of Lakatoro, Vanuatu")).2.2
    ("7 km E of Lakatoro") (" Vanuatu") (by decide) (by decide)
  rw [h]
  decide

/-- Shape of a successfully parsed feature row: the eighteen cells in order,
together with where the `main_time`, alert-level and country cells came
from. -/
theorem featureToRow_ok_elim (feat : PyJson) (r : List Cell)
    (h : featureToRow feat = .ok r) :
    ∃ (props timeJson magJson placeJson titleJson linkJson : PyJson)
      (eventType alertLevel country : String)
      (mainTimeCell depthCell latCell lonCell : Cell)
      (magTypeJson scoreJson tsunamiJson feltJson statusJson : PyJson),
      pyDictGet feat ("properties") (.obj []) = .ok props
      ∧ pyDictGet props ("time") .null = .ok timeJson
      ∧ time_to_cell timeJson = .ok mainTimeCell
      ∧ pyDictGet props ("mag") .null = .ok magJson
      ∧ pyDictGet props ("place") (.str "") = .ok placeJson
      ∧ mag_to_alert_level_dyn magJson = .ok alertLevel
      ∧ extract_country_dyn placeJson = .ok country
      ∧ r = [cellOfJson titleJson, cellOfJson linkJson, Cell.str eventType,
             Cell.str alertLevel, Cell.str country, cellOfJson magJson,
             cellOfJson magTypeJson, depthCell, latCell, lonCell,
             cellOfJson placeJson, cellOfJson scoreJson, cellOfJson tsunamiJson,
             cellOfJson feltJson, cellOfJson statusJson, mainTimeCell,
             Cell.str (severity_text_of magJson),
             Cell.str (population_text_of feltJson)] := by
  unfold featureToRow at h
  obtain ⟨props, h1, h⟩ := bind_ok _ _ _ h
  obtain ⟨geom, h2, h⟩ := bind_ok _ _ _ h
  obtain ⟨coords, h3, h⟩ := bind_ok _ _ _ h
  obtain ⟨timeJson, h4, h⟩ := bind_ok _ _ _ h
  obtain ⟨mtc, h5, h⟩ := bind_ok _ _ _ h
  obtain ⟨magJson, h6, h⟩ := bind_ok _ _ _ h
  obtain ⟨placeJson, h7, h⟩ := bind_ok _ _ _ h
  obtain ⟨titleJson, h8, h⟩ := bind_ok _ _ _ h
  obtain ⟨linkJson, h9, h⟩ := bind_ok _ _ _ h
  obtain ⟨typeJson, h10, h⟩ := bind_ok _ _ _ h
  obtain ⟨eventType, h11, h⟩ := bind_ok _ _ _ h
  obtain ⟨alertLevel, h12, h⟩ := bind_ok _ _ _ h
  obtain ⟨country, h13, h⟩ := bind_ok _ _ _ h
  obtain ⟨magTypeJson, h14, h⟩ := bind_ok _ _ _ h
  obtain ⟨nCoords, h15, h⟩ := bind_ok _ _ _ h
  obtain ⟨depthCell, h16, h⟩ := bind_ok _ _ _ h
  obtain ⟨latCell, h17, h⟩ := bind_ok _ _ _ h
  obtain ⟨lonCell, h18, h⟩ := bind_ok _ _ _ h
  obtain ⟨scoreJson, h19, h⟩ := bind_ok _ _ _ h
  obtain ⟨tsunamiJson, h20, h⟩ := bind_ok _ _ _ h
  obtain ⟨feltJson, h21, h⟩ := bind_ok _ _ _ h
  obtain ⟨statusJson, h22, h⟩ := bind_ok _ _ _ h
  have hr : r = [cellOfJson titleJson, cellOfJson linkJson, Cell.str eventType,
      Cell.str alertLevel, Cell.str country, cellOfJson magJson,
      cellOfJson magTypeJson, depthCell, latCell, lonCell,
      cellOfJson placeJson, cellOfJson scoreJson, cellOfJson tsunamiJson,
      cellOfJson feltJson, cellOfJson statusJson, mtc,
      Cell.str (severity_text_of magJson),
      Cell.str (population_text_of feltJson)] := by
    simpa [Pure.pure, Except.pure] using h.symm
  exact ⟨props, timeJson, magJson, placeJson, titleJson, linkJson, eventType,
         alertLevel, country, mtc, depthCell, latCell, lonCell, magTypeJson,
         scoreJson, tsunamiJson, feltJson, statusJson,
         h1, h4, h5, h6, h7, h12, h13, hr⟩

/-- A successfully computed `main_time` cell is never the epoch instant 0:
`0` is falsy, so `if time_ms:` sends it to `NaT`. -/
theorem time_to_cell_ne_epoch_zero (t : PyJson) (c : Cell)
    (h : time_to_cell t = .ok c) : c ≠ Cell.ts 0 := by
  cases t with
  | null => simp [time_to_cell, pyTruthy] at h; simp [h.symm]
  | num q =>
    by_cases hq : q.num = 0
    · have : pyTruthy (.num q) = false := by simp [pyTruthy, hq]
      rw [time_to_cell, this] at h
      simp at h
      simp [h.symm]
    · have : pyTruthy (.num q) = true := by simp [pyTruthy, hq]
      rw [time_to_cell, this] at h
      simp at h
      rw [h.symm]
      intro hc
      exact hq (by rw [Cell.ts.inj hc]; rfl)
  | str s =>
    by_cases hs : s = ""
    · simp [time_to_cell, pyTruthy, hs] at h; simp [h.symm]
    · simp [time_to_cell, pyTruthy, hs] at h
  | arr xs =>
    by_cases hx : xs.isEmpty
    · simp [time_to_cell, pyTruthy, hx] at h; simp [h.symm]
    · simp [time_to_cell, pyTruthy, hx] at h
  | obj kvs =>
    by_cases hx : kvs.isEmpty
    · simp [time_to_cell, pyTruthy, hx] at h; simp [h.symm]
    · simp [time_to_cell, pyTruthy, hx] at h

/-- Claim C10: a feature whose properties carry `time = 0` (the epoch
instant) is parsed exactly as if `time` were missing — the `main_time` cell
is `NaT`, the whole row is the row of the time-less feature, and no row of
any parse carries the epoch instant as its `main_time`. -/
theorem C10_epoch_zero_time :
    time_to_cell (PyJson.num 0) = .ok Cell.na
    ∧ time_to_cell PyJson.null = .ok Cell.na
    ∧ (∀ (kvs : List (String × PyJson)) (g : PyJson),
        pyLookup kvs ("time") = none →
        featureToRow (.obj [("properties", .obj (("time", .num 0) :: kvs)),
                            ("geometry", g)])
          = featureToRow (.obj [("properties", .obj kvs), ("geometry", g)]))
    ∧ (∀ (feat : PyJson) (r : List Cell),
        featureToRow feat = .ok r → r.getD 15 Cell.na ≠ Cell.ts 0) := by
  refine ⟨by simp [time_to_cell, pyTruthy], by simp [time_to_cell, pyTruthy],
          fun kvs g hk => ?_, fun feat r h => ?_⟩
  · have hget : ∀ (k : String) (dflt : PyJson), k ≠ "time" →
        pyDictGet (.obj (("time", PyJson.num 0) :: kvs)) k dflt
          = pyDictGet (.obj kvs) k dflt := by
      intro k dflt hkne
      simp only [pyDictGet, pyLookup]
      rw [List.find?_cons_of_neg]
      simp only [decide_eq_true_eq]
      exact fun hc => hkne (hc ▸ rfl)
    have htime : pyDictGet (.obj (("time", PyJson.num 0) :: kvs)) ("time") .null
        = .ok (.num 0) := by
      simp [pyDictGet, pyLookup, List.find?_cons_of_pos]
    have htime2 : pyDictGet (.obj kvs) ("time") .null = .ok .null := by
      simp [pyDictGet, hk]
    simp only [featureToRow]
    rw [show pyDictGet (.obj [("properties", PyJson.obj (("time", PyJson.num 0) :: kvs)),
          ("geometry", g)]) ("properties") (.obj [])
          = .ok (.obj (("time", PyJson.num 0) :: kvs)) from by
        simp +decide [pyDictGet, pyLookup, List.find?]]
    rw [show pyDictGet (.obj [("properties", PyJson.obj kvs), ("geometry", g)])
          ("properties") (.obj []) = .ok (.obj kvs) from by
        simp +decide [pyDictGet, pyLookup, List.find?]]
    rw [ok_bind, ok_bind]
    rw [show pyDictGet (.obj [("properties", PyJson.obj (("time", PyJson.num 0) :: kvs)),
          ("geometry", g)]) ("geometry") (.obj []) = .ok g from by
        simp +decide [pyDictGet, pyLookup, List.find?]]
    rw [show pyDictGet (.obj [("properties", PyJson.obj kvs), ("geometry", g)])
          ("geometry") (.obj []) = .ok g from by
        simp +decide [pyDictGet, pyLookup, List.find?]]
    rw [ok_bind, ok_bind]
    apply bind_congr_fun
    intro coords
    rw [htime, htime2, ok_bind, ok_bind]
    rw [show time_to_cell (PyJson.num 0) = .ok Cell.na from by
          simp [time_to_cell, pyTruthy],
        show time_to_cell PyJson.null = .ok Cell.na from rfl]
    rw [ok_bind, ok_bind]
    rw [hget ("mag") _ (by decide)]
    apply bind_congr_fun
    intro magJson
    rw [hget ("place") _ (by decide)]
    apply bind_congr_fun
    intro placeJson
    rw [hget ("title") _ (by decide)]
    apply bind_congr_fun
    intro titleJson
    rw [hget ("url") _ (by decide)]
    apply bind_congr_fun
    intro linkJson
    rw [hget ("type") _ (by decide)]
    apply bind_congr_fun
    intro typeJson
    apply bind_congr_fun
    intro eventType
    apply bind_congr_fun
    intro alertLevel
    apply bind_congr_fun
    intro country
    rw [hget ("magType") _ (by decide)]
    apply bind_congr_fun
    intro magTypeJson
    apply bind_congr_fun
    intro nCoords
    apply bind_congr_fun
    intro depthCell
    apply bind_congr_fun
    intro latCell
    apply bind_congr_fun
    intro lonCell
    rw [hget ("sig") _ (by decide)]
    apply bind_congr_fun
    intro scoreJson
    rw [hget ("tsunami") _ (by decide)]
    apply bind_congr_fun
    intro tsunamiJson
    rw [hget ("felt") _ (by decide)]
    apply bind_congr_fun
    intro feltJson
    rw [hget ("status") _ (by decide)]
  · obtain ⟨_, tJ, _, _, _, _, _, _, _, mtc, _, _, _, _, _, _, _, _,
      _, _, hmt, _, _, _, _, hr⟩ := featureToRow_ok_elim feat r h
    rw [hr]
    simpa using time_to_cell_ne_epoch_zero tJ mtc hmt

/-- Witness for C10 at a concrete feature carrying `time = 0`. -/
theorem C10_epoch_zero_time_witness :
    time_to_cell (PyJson.num 0) = .ok Cell.na
    ∧ featureToRow c10feat = .ok c10row
    ∧ c10row.getD 15 Cell.na ≠ Cell.ts 0 :=
  ⟨C10_epoch_zero_time.1, by decide,
   C10_epoch_zero_time.2.2.2 c10feat c10row (by decide)⟩

/-- Claim C6 fails as stated, at two points.  First, the repository has two
text/XML fetchers and `fetch_usgs_xml` (src/data.py:105-123) performs no
content sniffing at all: an HTML body is returned unchanged instead of
raising the HTML-specific error.  Second, even in `fetch_gdacs_rss_xml` the
HTML test is a substring test over the first 200 characters, so a body that
does not begin with an HTML marker — and does not even start with the
root-element character `<` — still raises the HTML-specific error rather
than the generic one the claim assigns to that case. -/
theorem C6_counterexample :
    Data.fetch_usgs_xml ("<html><body>blocked</body></html>")
      = .ok ("<html><body>blocked</body></html>")
    ∧ App.fetch_gdacs_rss_xml ("a <html page") = .error .valueErrorHtml
    ∧ GExc.valueErrorHtml ≠ GExc.valueErrorGeneric := by
  refine ⟨rfl, by decide, by decide⟩

/-- Claim C6 as amended: only the GDACS RSS fetcher sniffs its body.  After
stripping leading byte-order marks and surrounding whitespace, with `head`
the lower-cased first 200 characters: if `head` starts with
`"<!doctype html"` or `"<html"`, or contains `"<html"` anywhere, the
HTML-specific malformed-payload error is raised; otherwise, if the text does
not start with `"<"`, the generic malformed-payload error is raised;
otherwise the stripped text is returned.  The two errors are distinct
values.  The USGS XML fetcher returns any 2xx body unchanged. -/
theorem C6_amended (raw : String) :
    ((pyStartsWith (pyLower (pyTake 200 (pyStrip (pyLstripBom raw)))) ("<!doctype html")
      || pyStartsWith (pyLower (pyTake 200 (pyStrip (pyLstripBom raw)))) ("<html")
      || pyContains (pyLower (pyTake 200 (pyStrip (pyLstripBom raw)))) ("<html")) = true →
      App.fetch_gdacs_rss_xml raw = .error .valueErrorHtml)
    ∧ ((pyStartsWith (pyLower (pyTake 200 (pyStrip (pyLstripBom raw)))) ("<!doctype html")
      || pyStartsWith (pyLower (pyTake 200 (pyStrip (pyLstripBom raw)))) ("<html")
      || pyContains (pyLower (pyTake 200 (pyStrip (pyLstripBom raw)))) ("<html")) = false →
      pyStartsWith (pyStrip (pyLstripBom raw)) ("<") = false →
      App.fetch_gdacs_rss_xml raw = .error .valueErrorGeneric)
    ∧ ((pyStartsWith (pyLower (pyTake 200 (pyStrip (pyLstripBom raw)))) ("<!doctype html")
      || pyStartsWith (pyLower (pyTake 200 (pyStrip (pyLstripBom raw)))) ("<html")
      || pyContains (pyLower (pyTake 200 (pyStrip (pyLstripBom raw)))) ("<html")) = false →
      pyStartsWith (pyStrip (pyLstripBom raw)) ("<") = true →
      App.fetch_gdacs_rss_xml raw = .ok (pyStrip (pyLstripBom raw)))
    ∧ GExc.valueErrorHtml ≠ GExc.valueErrorGeneric
    ∧ (∀ body : String, Data.fetch_usgs_xml body = .ok body) := by
  refine ⟨fun h => ?_, fun h h2 => ?_, fun h h2 => ?_, by decide, fun body => rfl⟩
  · rw [App.fetch_gdacs_rss_xml]
    simp only [h, if_true]
  · rw [App.fetch_gdacs_rss_xml]
    simp only [h, h2, Bool.false_eq_true, if_false, Bool.not_false, if_true]
  · rw [App.fetch_gdacs_rss_xml]
    simp only [h, h2, Bool.false_eq_true, if_false, Bool.not_true]

/-- Witness for C6 at an HTML body, a non-XML body and a valid body. -/
theorem C6_amended_witness :
    App.fetch_gdacs_rss_xml ("<!DOCTYPE html><html></html>") = .error .valueErrorHtml
    ∧ App.fetch_gdacs_rss_xml ("plain text") = .error .valueErrorGeneric
    ∧ App.fetch_gdacs_rss_xml (" <rss>ok</rss> ") = .ok ("<rss>ok</rss>") :=
  ⟨(C6_amended ("<!DOCTYPE html><html></html>")).1 (by decide),
   (C6_amended ("plain text")).2.1 (by decide) (by decide),
   (C6_amended (" <rss>ok</rss> ")).2.2.1 (by decide) (by decide)⟩

/-- Claim C1 fails as stated: not every fetch-or-parse failure is recovered
by the cache fallback in the USGS loader.  The body `[]` is well-formed JSON
(so the fetch succeeds), and parsing it raises `AttributeError` at
`data.get("features", [])` (src/data.py:138), a class the `except
(requests.RequestException, ValueError, KeyError)` clause (line 219) does
not catch — so the call raises even though a non-empty cache snapshot
exists. -/
theorem C1_counterexample :
    Data.load_data_with_cache (.ok (PyJson.arr [])) true true (some sampleUsgsCache)
      = .error .attributeError
    ∧ sampleUsgsCache.rows ≠ [] := by
  refine ⟨by decide, by decide⟩

/-- Claim C1 as amended: when the fetch OR PARSE step of the USGS loader
fails with one of the exception classes it catches
(`requests.RequestException`, `ValueError`, `KeyError`) and a cache snapshot
exists, the loader does not raise: it reads the snapshot, re-applies the
type coercion, and returns the (coerced, row-count-preserving) cached table
with a non-empty fallback diagnostic.  The failure is quantified over the
joint outcome of `fetch_usgs_geojson` and `geojson_to_df` — it covers both a
fetch that raises and a fetch that succeeds with a body whose parse raises a
caught class (see `c1ParseFailBody`).  The GDACS loader does the same for
every exception class, since it catches all of them. -/
theorem C1_amended (fetched : Except UPyExc PyJson) (e : UPyExc)
    (t : CsvTable) (xmlOk writeOk : Bool)
    (hfail : (do
        let geojson ← fetched
        geojson_to_df geojson) = Except.error e)
    (he : usgs_caught e = true) :
    Data.load_data_with_cache fetched xmlOk writeOk (some t)
      = .ok (read_cache ["main_time"] t, some usgs_cache_msg)
    ∧ usgs_cache_msg ≠ ""
    ∧ (read_cache ["main_time"] t).rows.length = t.rows.length
    ∧ (∀ (e2 : GExc) (w : Bool) (t2 : CsvTable),
        App.load_data_with_cache (.error e2) w (some t2)
          = (read_cache gdacs_dt_cols t2, some (gdacs_cache_msg e2))
        ∧ gdacs_cache_msg e2 ≠ "") := by
  refine ⟨?_, by decide, ?_, fun e2 w t2 => ⟨rfl, ?_⟩⟩
  · simp only [Data.load_data_with_cache]
    rw [hfail]
    simp only [he, if_true]
  · simp [read_cache, read_csv]
  · cases e2 <;> decide

/-- Witness for C1 at a fetch-stage transport failure, and again at a
parse-stage `KeyError` (dict-valued `coordinates`), both with the sample
snapshot present. -/
theorem C1_amended_witness :
    (Data.load_data_with_cache (.error .requestException) true true (some sampleUsgsCache)
      = .ok (read_cache ["main_time"] sampleUsgsCache, some usgs_cache_msg)
     ∧ usgs_cache_msg ≠ "")
    ∧ Data.load_data_with_cache (.ok c1ParseFailBody) true true (some sampleUsgsCache)
      = .ok (read_cache ["main_time"] sampleUsgsCache, some usgs_cache_msg) :=
  ⟨⟨(C1_amended (.error .requestException) .requestException sampleUsgsCache
        true true (by decide) (by decide)).1,
    (C1_amended (.error .requestException) .requestException sampleUsgsCache
        true true (by decide) (by decide)).2.1⟩,
   (C1_amended (.ok c1ParseFailBody) .keyError sampleUsgsCache
        true true (by decide) (by decide)).1⟩

/-- Claim C2 fails as stated: on the no-cache fallback path the loader
returns `pd.DataFrame()` (src/data.py:239), a table with NO columns at all —
not a table with the canonical schema columns. -/
theorem C2_counterexample :
    Data.load_data_with_cache (.error .requestException) true true none
      = .ok (Df.mk [] [], some usgs_no_cache_msg)
    ∧ (Df.mk [] []).cols ≠ usgs_cols := by
  refine ⟨by decide, by decide⟩

/-- Claim C2 as amended: when the fetch fails with a caught exception class
and no cache snapshot exists, the loader returns a bare empty table with no
columns, together with a non-empty diagnostic containing "no cache"; the
GDACS loader does the same for every exception class. -/
theorem C2_amended (e : UPyExc) (xmlOk writeOk : Bool)
    (he : usgs_caught e = true) :
    Data.load_data_with_cache (.error e) xmlOk writeOk none
      = .ok (Df.mk [] [], some usgs_no_cache_msg)
    ∧ pyContains usgs_no_cache_msg ("no cache") = true
    ∧ usgs_no_cache_msg ≠ ""
    ∧ (∀ (e2 : GExc) (w : Bool),
        App.load_data_with_cache (.error e2) w none
          = (Df.mk [] [], some (gdacs_no_cache_msg e2))
        ∧ pyContains (gdacs_no_cache_msg e2) ("no cache") = true) := by
  refine ⟨?_, by decide, by decide, fun e2 w => ⟨rfl, ?_⟩⟩
  · simp only [Data.load_data_with_cache, error_bind, he, if_true]
  · cases e2 <;> decide

/-- Witness for C2 at a transport failure with no cache file. -/
theorem C2_amended_witness :
    Data.load_data_with_cache (.error .requestException) true true none
      = .ok (Df.mk [] [], some usgs_no_cache_msg)
    ∧ pyContains usgs_no_cache_msg ("no cache") = true :=
  ⟨(C2_amended .requestException true true (by decide)).1,
   (C2_amended .requestException true true (by decide)).2.1⟩

/-- Rows produced by the feature loop all come from a successfully parsed
feature. -/
theorem rowsOfFeatures_mem (feats : List PyJson) (rows : List (List Cell))
    (h : rowsOfFeatures feats = .ok rows) :
    ∀ r ∈ rows, ∃ f, featureToRow f = .ok r := by
  induction feats generalizing rows with
  | nil =>
    simp only [rowsOfFeatures] at h
    cases h
    simp
  | cons f fs ih =>
    rw [rowsOfFeatures] at h
    obtain ⟨r0, h1, h⟩ := bind_ok _ _ _ h
    obtain ⟨rs, h2, h⟩ := bind_ok _ _ _ h
    have hrows : rows = r0 :: rs := by simpa [Pure.pure, Except.pure] using h.symm
    subst hrows
    intro r hr
    rcases List.mem_cons.mp hr with rfl | hr2
    · exact ⟨f, h1⟩
    · exact ih rs h2 r hr2

theorem mem_insertRowByKey (idx : Nat) (x : List Cell) (l : List (List Cell))
    (r : List Cell) (h : r ∈ insertRowByKey idx x l) : r = x ∨ r ∈ l := by
  induction l with
  | nil => simpa [insertRowByKey] using h
  | cons y ys ih =>
    rw [insertRowByKey] at h
    by_cases hc : keyLtB (tsKeyAt idx y) (tsKeyAt idx x) = true
    · simp only [hc, if_true] at h
      rcases List.mem_cons.mp h with rfl | h2
      · right; simp
      · rcases ih h2 with h3 | h3
        · left; exact h3
        · right; simp [h3]
    · simp only [Bool.not_eq_true] at hc
      simp only [hc, Bool.false_eq_true, if_false] at h
      rcases List.mem_cons.mp h with rfl | h2
      · left; rfl
      · right; exact h2

theorem mem_sort_values (idx : Nat) (l : List (List Cell)) (r : List Cell)
    (h : r ∈ sort_values idx l) : r ∈ l := by
  induction l with
  | nil => simp [sort_values] at h
  | cons x xs ih =>
    rw [sort_values] at h
    rcases mem_insertRowByKey idx x _ r h with rfl | h2
    · simp
    · simp [ih h2]

/-- Head structure of a canonical row: two arbitrary cells, then the three
categorical cells, which are always strings. -/
def catHeadShape (r : List Cell) : Prop :=
  ∃ (a b : Cell) (s2 s3 s4 : String) (rest : List Cell),
    r = a :: b :: Cell.str s2 :: Cell.str s3 :: Cell.str s4 :: rest

theorem catHeadShape_append (r : List Cell) (x : Cell) (h : catHeadShape r) :
    catHeadShape (r ++ [x]) := by
  obtain ⟨a, b, s2, s3, s4, rest, rfl⟩ := h
  exact ⟨a, b, s2, s3, s4, rest ++ [x], by simp⟩

theorem catHeadShape_fill (r : List Cell) (h : catHeadShape r) :
    catHeadShape (fillCatRow usgs_cols r) := by
  obtain ⟨a, b, s2, s3, s4, rest, rfl⟩ := h
  refine ⟨a, b, s2, s3, s4, ?_, ?_⟩
  · exact List.zipWith
      (fun cn c => if cn ∈ cat_cols then fillUnknown c else c)
      (usgs_cols.drop 5) rest
  · simp +decide [fillCatRow, usgs_cols, usgs_base_cols, cat_cols, fillUnknown]

theorem catHeadShape_getD (r : List Cell) (h : catHeadShape r) :
    (∃ s, r.getD 2 Cell.na = Cell.str s) ∧ (∃ s, r.getD 3 Cell.na = Cell.str s)
    ∧ (∃ s, r.getD 4 Cell.na = Cell.str s) := by
  obtain ⟨a, b, s2, s3, s4, rest, rfl⟩ := h
  exact ⟨⟨s2, rfl⟩, ⟨s3, rfl⟩, ⟨s4, rfl⟩⟩

theorem featureToRow_catHeadShape (f : PyJson) (r : List Cell)
    (h : featureToRow f = .ok r) : catHeadShape r := by
  obtain ⟨_, _, _, _, tJ, lJ, et, al, co, _, dC, laC, loC, _, _, _, feJ, _,
    _, _, _, _, _, _, _, hr⟩ := featureToRow_ok_elim f r h
  exact ⟨_, _, et, al, co, _, hr⟩

/-- Head structure of a canonical GDACS row: three arbitrary cells, then the
three categorical cells (indices 3, 4, 5), which are always strings. -/
def gdacsCatHeadShape (r : List Cell) : Prop :=
  ∃ (a b c : Cell) (s3 s4 s5 : String) (rest : List Cell),
    r = a :: b :: c :: Cell.str s3 :: Cell.str s4 :: Cell.str s5 :: rest

theorem rssItemToRow_gdacsCatHeadShape (it : RssItem) :
    gdacsCatHeadShape (rssItemToRow it) :=
  ⟨_, _, _, find_text it.eventtype ("Unknown"), find_text it.alertlevel ("Unknown"),
   find_text it.country ("Unknown"), _, rfl⟩

theorem gdacsCatHeadShape_append (r : List Cell) (x : Cell)
    (h : gdacsCatHeadShape r) : gdacsCatHeadShape (r ++ [x]) := by
  obtain ⟨a, b, c, s3, s4, s5, rest, rfl⟩ := h
  exact ⟨a, b, c, s3, s4, s5, rest ++ [x], by simp⟩

theorem gdacsCatHeadShape_fill (r : List Cell) (h : gdacsCatHeadShape r) :
    gdacsCatHeadShape (fillCatRow gdacs_cols r) := by
  obtain ⟨a, b, c, s3, s4, s5, rest, rfl⟩ := h
  refine ⟨a, b, c, s3, s4, s5, ?_, ?_⟩
  · exact List.zipWith
      (fun cn c2 => if cn ∈ cat_cols then fillUnknown c2 else c2)
      (gdacs_cols.drop 6) rest
  · simp +decide [fillCatRow, gdacs_cols, gdacs_base_cols, cat_cols, fillUnknown]

theorem gdacsCatHeadShape_getD (r : List Cell) (h : gdacsCatHeadShape r) :
    (∃ s, r.getD 3 Cell.na = Cell.str s) ∧ (∃ s, r.getD 4 Cell.na = Cell.str s)
    ∧ (∃ s, r.getD 5 Cell.na = Cell.str s) := by
  obtain ⟨a, b, c, s3, s4, s5, rest, rfl⟩ := h
  exact ⟨⟨s3, rfl⟩, ⟨s4, rfl⟩, ⟨s5, rfl⟩⟩

/-- Claim C5 fails as stated: a feature whose place string ends in a comma
produces a row whose `country` is the empty string — present in the
canonical table, since `fillna("Unknown")` replaces only missing values,
never empty strings. -/
theorem C5_counterexample :
    (geojson_to_df c5Body).map (fun df => df.rows.map (fun r => r.getD 4 Cell.na))
      = .ok [Cell.str ("")]
    ∧ ("" : String).length = 0 := by
  refine ⟨by decide, rfl⟩

/-- Claim C5 as amended: in every canonical table produced by the GeoJSON
pipeline the three categorical fields are always strings (never missing /
null), and a missing source field yields the `"Unknown"` default in both
pipelines — but a present-and-empty source value yields the empty string,
so non-emptiness does not hold. -/
theorem C5_amended :
    (∀ (data : PyJson) (df : Df), geojson_to_df data = .ok df →
      ∀ r ∈ df.rows,
        (∃ s, r.getD 2 Cell.na = Cell.str s) ∧ (∃ s, r.getD 3 Cell.na = Cell.str s)
        ∧ (∃ s, r.getD 4 Cell.na = Cell.str s))
    ∧ (∀ (items : List RssItem), ∀ r ∈ (rss_to_df items).rows,
        (∃ s, r.getD 3 Cell.na = Cell.str s) ∧ (∃ s, r.getD 4 Cell.na = Cell.str s)
        ∧ (∃ s, r.getD 5 Cell.na = Cell.str s))
    ∧ (∀ it : RssItem,
        (it.eventtype = none → (rssItemToRow it).getD 3 Cell.na = Cell.str ("Unknown"))
        ∧ (it.alertlevel = none → (rssItemToRow it).getD 4 Cell.na = Cell.str ("Unknown"))
        ∧ (it.country = none → (rssItemToRow it).getD 5 Cell.na = Cell.str ("Unknown")))
    ∧ (∀ (kvs : List (String × PyJson)) (g : PyJson) (r : List Cell),
        pyLookup kvs ("mag") = none → pyLookup kvs ("place") = none →
        featureToRow (.obj [("properties", .obj kvs), ("geometry", g)]) = .ok r →
        r.getD 3 Cell.na = Cell.str ("Unknown")
        ∧ r.getD 4 Cell.na = Cell.str ("Unknown")) := by
  refine ⟨fun data df h r hr => ?_, fun items r hr => ?_, fun it => ?_,
          fun kvs g r hmag hplace h => ?_⟩
  · rw [geojson_to_df] at h
    obtain ⟨feats, h1, h⟩ := bind_ok _ _ _ h
    obtain ⟨rows, h2, h⟩ := bind_ok _ _ _ h
    by_cases hemp : rows.isEmpty
    · simp only [hemp, if_true, Pure.pure, Except.pure] at h
      cases h
      simp at hr
    · simp only [hemp, Bool.false_eq_true, if_false, Pure.pure, Except.pure] at h
      cases h
      simp only at hr
      obtain ⟨r3, hr3, rfl⟩ := List.mem_map.mp hr
      have hr2 := mem_sort_values _ _ _ hr3
      obtain ⟨r1, hr1, rfl⟩ := List.mem_map.mp hr2
      obtain ⟨f, hf⟩ := rowsOfFeatures_mem feats rows h2 r1 hr1
      exact catHeadShape_getD _
        (catHeadShape_fill _ (catHeadShape_append _ _
          (featureToRow_catHeadShape f r1 hf)))
  · simp only [rss_to_df] at hr
    by_cases hemp : (items.map rssItemToRow).isEmpty
    · simp only [hemp, if_true] at hr
      simp at hr
    · simp only [hemp, Bool.false_eq_true, if_false] at hr
      obtain ⟨r4, hr4, rfl⟩ := List.mem_map.mp hr
      have hr3 := mem_sort_values _ _ _ hr4
      obtain ⟨r2, hr2, rfl⟩ := List.mem_map.mp hr3
      obtain ⟨r1, hr1, rfl⟩ := List.mem_map.mp hr2
      obtain ⟨it, hit, rfl⟩ := List.mem_map.mp hr1
      exact gdacsCatHeadShape_getD _
        (gdacsCatHeadShape_fill _ (gdacsCatHeadShape_append _ _
          (gdacsCatHeadShape_append _ _ (rssItemToRow_gdacsCatHeadShape it))))
  · refine ⟨fun h => ?_, fun h => ?_, fun h => ?_⟩ <;>
      simp [rssItemToRow, textFieldCell, find_text, h]
  · obtain ⟨props, tJ, magJson, placeJson, _, _, _, al, co, _, _, _, _, _, _,
      _, _, _, h1, _, _, h6, h7, h12, h13, hr⟩ := featureToRow_ok_elim _ r h
    have hprops : props = .obj kvs := by
      rw [show pyDictGet (.obj [("properties", PyJson.obj kvs), ("geometry", g)])
            ("properties") (.obj []) = .ok (.obj kvs) from by
          simp +decide [pyDictGet, pyLookup, List.find?]] at h1
      exact (Except.ok.inj h1).symm
    subst hprops
    have hmagJ : magJson = .null := by
      rw [show pyDictGet (.obj kvs) ("mag") .null = .ok .null from by
            simp [pyDictGet, hmag]] at h6
      exact (Except.ok.inj h6).symm
    subst hmagJ
    have hplaceJ : placeJson = .str ("") := by
      rw [show pyDictGet (.obj kvs) ("place") (.str "") = .ok (.str "") from by
            simp [pyDictGet, hplace]] at h7
      exact (Except.ok.inj h7).symm
    subst hplaceJ
    have hal : al = "Unknown" := by
      simpa [mag_to_alert_level_dyn] using (Except.ok.inj h12).symm
    have hco : co = "Unknown" := by
      simpa [extract_country_dyn, pyTruthy] using (Except.ok.inj h13).symm
    subst hal
    subst hco
    rw [hr]
    exact ⟨rfl, rfl⟩

/-- Witness for C5 at the sample USGS table, the sample GDACS table, an
all-missing RSS item, and a feature without magnitude and place. -/
theorem C5_amended_witness :
    ((∃ s, (sampleUsgsDf.rows.getD 0 []).getD 2 Cell.na = Cell.str s)
      ∧ (∃ s, (sampleUsgsDf.rows.getD 0 []).getD 3 Cell.na = Cell.str s)
      ∧ (∃ s, (sampleUsgsDf.rows.getD 0 []).getD 4 Cell.na = Cell.str s))
    ∧ ((∃ s, ((rss_to_df [sampleRssItem]).rows.getD 0 []).getD 3 Cell.na = Cell.str s)
      ∧ (∃ s, ((rss_to_df [sampleRssItem]).rows.getD 0 []).getD 4 Cell.na = Cell.str s)
      ∧ (∃ s, ((rss_to_df [sampleRssItem]).rows.getD 0 []).getD 5 Cell.na = Cell.str s))
    ∧ (rssItemToRow {}).getD 3 Cell.na = Cell.str ("Unknown")
    ∧ bareFeatureRow.getD 3 Cell.na = Cell.str ("Unknown") :=
  ⟨C5_amended.1 sampleBody sampleUsgsDf (by decide)
      (sampleUsgsDf.rows.getD 0 []) (by decide),
   C5_amended.2.1 [sampleRssItem]
      ((rss_to_df [sampleRssItem]).rows.getD 0 []) (by decide),
   (C5_amended.2.2.1 {}).1 rfl,
   (C5_amended.2.2.2 [] (.obj []) bareFeatureRow rfl rfl (by decide)).1⟩

theorem getD_map_of_lt {α β : Type} (f : α → β) (l : List α) (j : Nat)
    (d : α) (d2 : β) (h : j < l.length) :
    (l.map f).getD j d2 = f (l.getD j d) := by
  induction l generalizing j with
  | nil => simp at h
  | cons a as ih =>
    cases j with
    | zero => rfl
    | succ n => simpa using ih n (by simpa using h)

theorem getD_zipWith_of_lt {α β γ : Type} (f : α → β → γ) (l1 : List α)
    (l2 : List β) (j : Nat) (d1 : α) (d2 : β) (d : γ)
    (h1 : j < l1.length) (h2 : j < l2.length) :
    (List.zipWith f l1 l2).getD j d = f (l1.getD j d1) (l2.getD j d2) := by
  induction l1 generalizing l2 j with
  | nil => simp at h1
  | cons a as ih =>
    cases l2 with
    | nil => simp at h2
    | cons b bs =>
      cases j with
      | zero => rfl
      | succ n => simpa using ih bs n (by simpa using h1) (by simpa using h2)

theorem getD_range_map {β : Type} (g : Nat → β) (n j : Nat) (d : β)
    (h : j < n) : ((List.range n).map g).getD j d = g j := by
  rw [getD_map_of_lt g (List.range n) j 0 d (by simpa using h)]
  congr 1
  simp [List.getD, List.getElem?_range, h]

theorem okCatB_elim (c : Cell) (h : okCatB c = true) :
    ∃ s : String, c = Cell.str s ∧ ¬s ∈ na_tokens ∧ parseNumeric s = none := by
  cases c <;> simp [okCatB] at h ⊢
  exact h

theorem okTsCellB_elim (c : Cell) (h : okTsCellB c = true) :
    c = Cell.na ∨ ∃ q, c = Cell.ts q := by
  cases c <;> simp [okTsCellB] at h ⊢

theorem okDateCellB_elim (c : Cell) (h : okDateCellB c = true) :
    c = Cell.na ∨ ∃ d, c = Cell.date d := by
  cases c <;> simp [okDateCellB] at h ⊢

theorem okNumCellB_elim (c : Cell) (h : okNumCellB c = true) :
    c = Cell.na ∨ ∃ q, c = Cell.num q := by
  cases c <;> simp [okNumCellB] at h ⊢

/-- A column whose every cell is a number-or-missing in every good row is
inferred numeric by `read_csv`. -/
theorem colIsNumeric_true_at (rows : List (List Cell)) (j : Nat) (hj : j < 19)
    (hall : ∀ r ∈ rows, usgsRowOkB r = true)
    (hsel : ∀ r2 : List Cell, usgsRowOkB r2 = true →
      okNumCellB (r2.getD j Cell.na) = true) :
    colIsNumeric (CsvTable.mk usgs_cols (rows.map (List.map writeCell))) j
      = true := by
  rw [colIsNumeric, List.all_eq_true]
  intro rr hrr
  have hrr2 : rr ∈ rows.map (List.map writeCell) := hrr
  obtain ⟨r2, hr2, rfl⟩ := List.mem_map.mp hrr2
  have hok := hall r2 hr2
  have hlen : r2.length = 19 := by
    simp only [usgsRowOkB, Bool.and_eq_true, beq_iff_eq] at hok
    tauto
  have hnum := hsel r2 hok
  rw [getD_map_of_lt writeCell r2 j Cell.na .empty (by omega)]
  rcases okNumCellB_elim _ hnum with h | ⟨q, h⟩ <;> rw [h] <;>
    simp [writeCell, csvCellNumericOk]

theorem okCat_writeCell (s : String) (hna : ¬s ∈ na_tokens) :
    writeCell (Cell.str s) = CsvCell.text s := by
  have hs : s ≠ "" := fun h => hna (by rw [h]; simp [na_tokens])
  simp [writeCell, hs]

/-- A column containing a round-trippable categorical string is not
inferred numeric. -/
theorem colIsNumeric_false_of_cat (t : CsvTable) (j : Nat) (rr : List CsvCell)
    (hmem : rr ∈ t.rows) (s : String) (hget : rr.getD j .empty = .text s)
    (hna : ¬s ∈ na_tokens) (hnum : parseNumeric s = none) :
    colIsNumeric t j = false := by
  rw [colIsNumeric]
  rw [← Bool.not_eq_true, List.all_eq_true]
  push_neg
  refine ⟨rr, hmem, ?_⟩
  rw [hget]
  simp [csvCellNumericOk, hnum, hna]

/-- A column containing a serialized timestamp is not inferred numeric. -/
theorem colIsNumeric_false_of_ts (t : CsvTable) (j : Nat) (rr : List CsvCell)
    (hmem : rr ∈ t.rows) (q : ℚ) (hget : rr.getD j .empty = .tsText q) :
    colIsNumeric t j = false := by
  rw [colIsNumeric]
  rw [← Bool.not_eq_true, List.all_eq_true]
  push_neg
  refine ⟨rr, hmem, ?_⟩
  rw [hget]
  simp [csvCellNumericOk]

/-- A column containing a serialized date is not inferred numeric. -/
theorem colIsNumeric_false_of_date (t : CsvTable) (j : Nat) (rr : List CsvCell)
    (hmem : rr ∈ t.rows) (d : ℤ) (hget : rr.getD j .empty = .dateText d) :
    colIsNumeric t j = false := by
  rw [colIsNumeric]
  rw [← Bool.not_eq_true, List.all_eq_true]
  push_neg
  refine ⟨rr, hmem, ?_⟩
  rw [hget]
  simp [csvCellNumericOk]

theorem to_date_cell_dateStr (d : ℤ) : to_date_cell (Cell.dateStr d) = Cell.date d := by
  simp only [to_date_cell, to_datetime_cell, dateCellOfTs]
  congr 1
  rw [Rat.mkRat_one, Rat.num_intCast, Rat.den_intCast]
  simp only [Nat.cast_one, one_mul]
  exact Int.mul_fdiv_cancel d (by norm_num)

/-- Claim C8 fails as stated: round-tripping the canonical table whose
`country` is the empty string (see C5) yields `"Unknown"` instead — the
empty field reads back as `NaN` and the re-typing pass fills it. -/
theorem C8_counterexample :
    (read_cache ["main_time"] (to_csv c5Df)).rows.map (fun r => r.getD 4 Cell.na)
      = [Cell.str ("Unknown")]
    ∧ c5Df.rows.map (fun r => r.getD 4 Cell.na) = [Cell.str ("")]
    ∧ Cell.str ("Unknown") ≠ Cell.str ("") := by
  refine ⟨by decide, by decide, by decide⟩

/-- Claim C8 as amended: a canonical table whose categorical values are
strings that pandas reads back as neither missing nor numeric, whose
`main_time` / `date_utc` cells are timestamps/dates or missing, and whose
numeric fields are numbers or missing (as the data model prescribes),
round-trips through Cache Store write + read with identical
`(event_type, alert_level, country, main_time, date_utc)` AND identical
numeric fields (`magnitude`, `depth_km`, `latitude`, `longitude`,
`alert_score`, `tsunami`, `felt`) in every row — timestamps and numbers
exactly in the exact-rational model, hence within any floating-point
tolerance.  An empty or NA-token or numeric-looking categorical value is
not preserved (it comes back as `"Unknown"`, respectively re-typed), which
is what the counterexample exhibits. -/
theorem C8_amended (df : Df) (hcols : df.cols = usgs_cols)
    (hrows : ∀ r ∈ df.rows, usgsRowOkB r = true) :
    (read_cache ["main_time"] (to_csv df)).rows.map (fun r => proj5 r ++ projNum r)
      = df.rows.map (fun r => proj5 r ++ projNum r) := by
  rw [read_cache, read_csv, to_csv]
  simp only [hcols]
  rw [List.map_map, List.map_map, List.map_map]
  apply List.map_congr_left
  intro r hr
  simp only [Function.comp]
  have hok := hrows r hr
  simp only [usgsRowOkB, Bool.and_eq_true, beq_iff_eq] at hok
  obtain ⟨⟨⟨⟨⟨⟨⟨⟨⟨⟨⟨⟨hlen, hc2⟩, hc3⟩, hc4⟩, hc15⟩, hc18⟩, hn5⟩, hn7⟩,
    hn8⟩, hn9⟩, hn11⟩, hn12⟩, hn13⟩ := hok
  obtain ⟨s2, he2, hna2, hnum2⟩ := okCatB_elim _ hc2
  obtain ⟨s3, he3, hna3, hnum3⟩ := okCatB_elim _ hc3
  obtain ⟨s4, he4, hna4, hnum4⟩ := okCatB_elim _ hc4
  set t : CsvTable := CsvTable.mk usgs_cols (df.rows.map (List.map writeCell))
    with ht
  have hmem : List.map writeCell r ∈ t.rows := by
    rw [ht]
    exact List.mem_map.mpr ⟨r, hr, rfl⟩
  have hw2 : (List.map writeCell r).getD 2 .empty = .text s2 := by
    rw [getD_map_of_lt writeCell r 2 Cell.na .empty (by omega), he2,
        okCat_writeCell s2 hna2]
  have hw3 : (List.map writeCell r).getD 3 .empty = .text s3 := by
    rw [getD_map_of_lt writeCell r 3 Cell.na .empty (by omega), he3,
        okCat_writeCell s3 hna3]
  have hw4 : (List.map writeCell r).getD 4 .empty = .text s4 := by
    rw [getD_map_of_lt writeCell r 4 Cell.na .empty (by omega), he4,
        okCat_writeCell s4 hna4]
  have hn2 := colIsNumeric_false_of_cat t 2 _ hmem s2 hw2 hna2 hnum2
  have hn3 := colIsNumeric_false_of_cat t 3 _ hmem s3 hw3 hna3 hnum3
  have hn4 := colIsNumeric_false_of_cat t 4 _ hmem s4 hw4 hna4 hnum4
  have hw15 : (List.map writeCell r).getD 15 .empty
      = writeCell (r.getD 15 Cell.na) :=
    getD_map_of_lt writeCell r 15 Cell.na .empty (by omega)
  have hw18 : (List.map writeCell r).getD 18 .empty
      = writeCell (r.getD 18 Cell.na) :=
    getD_map_of_lt writeCell r 18 Cell.na .empty (by omega)
  have hwAll : ∀ j : Nat, j < 19 →
      (List.map writeCell r).getD j .empty = writeCell (r.getD j Cell.na) :=
    fun j hj => getD_map_of_lt writeCell r j Cell.na .empty (by omega)
  have hcnum : ∀ j : Nat, j < 19 →
      (∀ r2 : List Cell, usgsRowOkB r2 = true →
        okNumCellB (r2.getD j Cell.na) = true) →
      colIsNumeric t j = true := by
    intro j hj hsel
    rw [ht]
    exact colIsNumeric_true_at df.rows j hj hrows hsel
  have hcn5 : colIsNumeric t 5 = true := hcnum 5 (by norm_num)
    (fun r2 h2 => by simp only [usgsRowOkB, Bool.and_eq_true] at h2; tauto)
  have hcn7 : colIsNumeric t 7 = true := hcnum 7 (by norm_num)
    (fun r2 h2 => by simp only [usgsRowOkB, Bool.and_eq_true] at h2; tauto)
  have hcn8 : colIsNumeric t 8 = true := hcnum 8 (by norm_num)
    (fun r2 h2 => by simp only [usgsRowOkB, Bool.and_eq_true] at h2; tauto)
  have hcn9 : colIsNumeric t 9 = true := hcnum 9 (by norm_num)
    (fun r2 h2 => by simp only [usgsRowOkB, Bool.and_eq_true] at h2; tauto)
  have hcn11 : colIsNumeric t 11 = true := hcnum 11 (by norm_num)
    (fun r2 h2 => by simp only [usgsRowOkB, Bool.and_eq_true] at h2; tauto)
  have hcn12 : colIsNumeric t 12 = true := hcnum 12 (by norm_num)
    (fun r2 h2 => by simp only [usgsRowOkB, Bool.and_eq_true] at h2; tauto)
  have hcn13 : colIsNumeric t 13 = true := hcnum 13 (by norm_num)
    (fun r2 h2 => by simp only [usgsRowOkB, Bool.and_eq_true] at h2; tauto)
  have hlen19 : usgs_cols.length = 19 := by decide
  have hread : ∀ j : Nat, j < 19 →
      ((List.range usgs_cols.length).map
        (fun j2 => if colIsNumeric t j2
          then readCellNumeric ((List.map writeCell r).getD j2 .empty)
          else readCellObject ((List.map writeCell r).getD j2 .empty))).getD j Cell.na
      = (if colIsNumeric t j
          then readCellNumeric ((List.map writeCell r).getD j .empty)
          else readCellObject ((List.map writeCell r).getD j .empty)) := by
    intro j hj
    rw [hlen19]
    exact getD_range_map _ 19 j Cell.na hj
  have hrlen : ((List.range usgs_cols.length).map
      (fun j2 => if colIsNumeric t j2
        then readCellNumeric ((List.map writeCell r).getD j2 .empty)
        else readCellObject ((List.map writeCell r).getD j2 .empty))).length = 19 := by
    simp [hlen19]
  rw [proj5, proj5, projNum, projNum]
  simp only [List.cons_append, List.nil_append]
  have hget : ∀ j : Nat, j < 19 →
      (coerceRow usgs_cols ["main_time"]
        ((List.range usgs_cols.length).map
          (fun j2 => if colIsNumeric t j2
            then readCellNumeric ((List.map writeCell r).getD j2 .empty)
            else readCellObject ((List.map writeCell r).getD j2 .empty)))).getD j Cell.na
      = (fun cn c =>
          if cn ∈ (["main_time"] : List String) then to_datetime_cell c
          else if cn = "date_utc" then to_date_cell c
          else if cn ∈ cat_cols then fillUnknown c
          else c) (usgs_cols.getD j "")
        (if colIsNumeric t j
          then readCellNumeric ((List.map writeCell r).getD j .empty)
          else readCellObject ((List.map writeCell r).getD j .empty)) := by
    intro j hj
    rw [coerceRow]
    rw [getD_zipWith_of_lt _ usgs_cols _ j ("") Cell.na Cell.na
        (by rw [hlen19]; exact hj) (by rw [hrlen]; exact hj)]
    rw [hread j hj]
  congr 1
  · -- event_type (index 2)
    rw [hget 2 (by norm_num), hn2, hw2, he2]
    simp +decide [usgs_cols, usgs_base_cols, cat_cols, readCellObject, hna2,
      fillUnknown]
  congr 1
  · -- alert_level (index 3)
    rw [hget 3 (by norm_num), hn3, hw3, he3]
    simp +decide [usgs_cols, usgs_base_cols, cat_cols, readCellObject, hna3,
      fillUnknown]
  congr 1
  · -- country (index 4)
    rw [hget 4 (by norm_num), hn4, hw4, he4]
    simp +decide [usgs_cols, usgs_base_cols, cat_cols, readCellObject, hna4,
      fillUnknown]
  congr 1
  · -- main_time (index 15)
    rw [hget 15 (by norm_num)]
    rcases okTsCellB_elim _ hc15 with h15 | ⟨q, h15⟩
    · rw [hw15, h15]
      by_cases hcn : colIsNumeric t 15 = true <;>
        simp +decide [hcn, usgs_cols, usgs_base_cols, writeCell,
          readCellNumeric, readCellObject, to_datetime_cell]
    · have hts : (List.map writeCell r).getD 15 .empty = .tsText q := by
        rw [hw15, h15]; rfl
      rw [colIsNumeric_false_of_ts t 15 _ hmem q hts, hts, h15]
      simp +decide [usgs_cols, usgs_base_cols, readCellObject,
        to_datetime_cell]
  congr 1
  · -- date_utc (index 18)
    rw [hget 18 (by norm_num)]
    rcases okDateCellB_elim _ hc18 with h18 | ⟨d, h18⟩
    · rw [hw18, h18]
      by_cases hcn : colIsNumeric t 18 = true <;>
        simp +decide [hcn, usgs_cols, usgs_base_cols, writeCell,
          readCellNumeric, readCellObject, to_date_cell, to_datetime_cell,
          dateCellOfTs]
    · have hdt : (List.map writeCell r).getD 18 .empty = .dateText d := by
        rw [hw18, h18]; rfl
      rw [colIsNumeric_false_of_date t 18 _ hmem d hdt, hdt, h18]
      simp +decide [usgs_cols, usgs_base_cols, readCellObject,
        to_date_cell_dateStr]
  congr 1
  · -- magnitude (index 5)
    rw [hget 5 (by norm_num), hcn5, hwAll 5 (by norm_num)]
    rcases okNumCellB_elim _ hn5 with h5 | ⟨q, h5⟩ <;> rw [h5] <;>
      simp +decide [usgs_cols, usgs_base_cols, cat_cols, writeCell,
        readCellNumeric, fillUnknown]
  congr 1
  · -- depth_km (index 7)
    rw [hget 7 (by norm_num), hcn7, hwAll 7 (by norm_num)]
    rcases okNumCellB_elim _ hn7 with h7 | ⟨q, h7⟩ <;> rw [h7] <;>
      simp +decide [usgs_cols, usgs_base_cols, cat_cols, writeCell,
        readCellNumeric, fillUnknown]
  congr 1
  · -- latitude (index 8)
    rw [hget 8 (by norm_num), hcn8, hwAll 8 (by norm_num)]
    rcases okNumCellB_elim _ hn8 with h8 | ⟨q, h8⟩ <;> rw [h8] <;>
      simp +decide [usgs_cols, usgs_base_cols, cat_cols, writeCell,
        readCellNumeric, fillUnknown]
  congr 1
  · -- longitude (index 9)
    rw [hget 9 (by norm_num), hcn9, hwAll 9 (by norm_num)]
    rcases okNumCellB_elim _ hn9 with h9 | ⟨q, h9⟩ <;> rw [h9] <;>
      simp +decide [usgs_cols, usgs_base_cols, cat_cols, writeCell,
        readCellNumeric, fillUnknown]
  congr 1
  · -- alert_score (index 11)
    rw [hget 11 (by norm_num), hcn11, hwAll 11 (by norm_num)]
    rcases okNumCellB_elim _ hn11 with h11 | ⟨q, h11⟩ <;> rw [h11] <;>
      simp +decide [usgs_cols, usgs_base_cols, cat_cols, writeCell,
        readCellNumeric, fillUnknown]
  congr 1
  · -- tsunami (index 12)
    rw [hget 12 (by norm_num), hcn12, hwAll 12 (by norm_num)]
    rcases okNumCellB_elim _ hn12 with h12 | ⟨q, h12⟩ <;> rw [h12] <;>
      simp +decide [usgs_cols, usgs_base_cols, cat_cols, writeCell,
        readCellNumeric, fillUnknown]
  congr 1
  · -- felt (index 13)
    rw [hget 13 (by norm_num), hcn13, hwAll 13 (by norm_num)]
    rcases okNumCellB_elim _ hn13 with h13 | ⟨q, h13⟩ <;> rw [h13] <;>
      simp +decide [usgs_cols, usgs_base_cols, cat_cols, writeCell,
        readCellNumeric, fillUnknown]

/-- Witness for C8 at the sample table (non-empty categorical strings,
timestamp, date and numeric fields present). -/
theorem C8_amended_witness :
    (read_cache ["main_time"] (to_csv sampleUsgsDf)).rows.map
        (fun r => proj5 r ++ projNum r)
      = sampleUsgsDf.rows.map (fun r => proj5 r ++ projNum r) :=
  C8_amended sampleUsgsDf (by decide) (by decide)

/-- Claim C3 evaluated at its failing input.  In the GDACS loader the cache
write (src/app.py:157) sits inside the same `try` as the fetch and parse, so
a write failure is NOT swallowed with the fresh table returned: it falls
into the `except Exception` fallback.  Concretely, when fetch and parse
succeed with one fresh row, the write raises `OSError` and no prior cache
file exists, the loader discards the fresh table and returns the bare empty
table plus a "fetch failed" diagnostic; with a successful write it returns
the fresh table and no diagnostic.  The USGS loader, by contrast, does
swallow the `OSError` (src/data.py:212-215): its result at the sample body
is the same whether the write fails or succeeds. -/
theorem C3_code_bug_eval :
    App.load_data_with_cache (.ok [sampleRssItem]) false none
      = (Df.mk [] [], some (gdacs_no_cache_msg .osError))
    ∧ (rss_to_df [sampleRssItem]).rows.length = 1
    ∧ App.load_data_with_cache (.ok [sampleRssItem]) true none
      = (rss_to_df [sampleRssItem], none)
    ∧ Data.load_data_with_cache (.ok sampleBody) true false none
      = Data.load_data_with_cache (.ok sampleBody) true true none := by
  refine ⟨by decide, by decide, by decide, by decide⟩

end Monitor
